import Mathlib

set_option autoImplicit false

/-!
# CI1302 link layer and battery monitor: a shallow embedding

Machine integers are natural numbers; a width is imposed with an explicit
remainder where the C code truncates.  Byte buffers are lists of naturals.
-/

namespace CI1302

/-! ## `ci1302_protocol.h`: constants, records and the command enumeration -/

/-- Protocol version constant `UART_VERSION`. -/
def UART_VERSION : Nat := 0x0000

def INVAILD_SPEAK : Nat := 0x12345666
def RECV_TTS_PLAY : Nat := 0x12345677
def RECV_MP3_PLAY : Nat := 0x12345688
def DEF_FILL : Nat := 0x12345678
def WAKEUP_FILL_DATA : Nat := 0x12345678

/-- Received frame `ci1302_uart_frame_t`: `uint16_t cmd`, `uint8_t* buffer`,
`uint32_t len`.  The record has no version field and no fill field. -/
structure ci1302_uart_frame_t where
  cmd : Nat
  buffer : List Nat
  len : Nat
deriving DecidableEq, Repr

/-- Wire header `cias_standard_head_t` (declared `__attribute__((packed))`):
`uint32_t magic; uint16_t checksum; uint16_t type; uint16_t len;
uint16_t version; uint32_t fill_data;`. -/
structure cias_standard_head_t where
  magic : Nat
  checksum : Nat
  type : Nat
  len : Nat
  version : Nat
  fill_data : Nat
deriving DecidableEq, Repr

/-- Width in bytes of the C scalar types used by the header. -/
def sizeof_uint16_t : Nat := 2

def sizeof_uint32_t : Nat := 4

/-- Members of `cias_standard_head_t` in declaration order, each with the size
of its declared type. -/
def cias_standard_head_t_members : List (String × Nat) :=
  [("magic", sizeof_uint32_t), ("checksum", sizeof_uint16_t), ("type", sizeof_uint16_t),
   ("len", sizeof_uint16_t), ("version", sizeof_uint16_t), ("fill_data", sizeof_uint32_t)]

/-- Layout of a packed record: no padding, so every member starts where the
previous one ends.  Yields `(name, offset, width)` from the start offset `off`. -/
def packed_layout : Nat → List (String × Nat) → List (String × Nat × Nat)
  | _, [] => []
  | off, (n, w) :: ms => (n, off, w) :: packed_layout (off + w) ms

/-- Size of a packed record: the sum of the member widths. -/
def packed_sizeof (ms : List (String × Nat)) : Nat :=
  (ms.map Prod.snd).sum

/-- The enumeration `ci1302_cmd_t`: every enumerator with its value, in
declaration order. -/
def ci1302_cmd_t : List (String × Nat) := [
  ("LOCAL_ASR_RESULT_NOTIFY", 0x0101),
  ("WAKE_UP", 0x0102),
  ("VAD_END", 0x0103),
  ("SKIP_INVAILD_SPEAK", 0x0104),
  ("PCM_MIDDLE", 0x0105),
  ("PCM_FINISH", 0x0106),
  ("PCM_IDLE", 0x0107),
  ("VAD_START", 0x0108),
  ("EXIT_WAKE_UP", 0x0109),
  ("SET_VAD_SENSITIVITY", 0x010A),
  ("VAD_START_BY_KEY", 0x010B),
  ("VAD_END_BY_KEY", 0x010C),
  ("SET_AUDIO_EXIT_WAKE_UP", 0x010D),
  ("PCM_DENOISE_ENABLE", 0x010E),
  ("SET_VAD_FILTER_FRAME", 0x010F),
  ("SET_VAD_SENSITIVITY_ACTIVATE_LENTH", 0x0110),
  ("SET_VAD_START_MAX_TIMEOUT", 0x0111),
  ("SET_PLAY_VOICE_ID", 0x0112),
  ("SET_WAKE_UP_CONTINUE_TIME", 0x0113),
  ("SET_ENTER_WAKE_UP", 0x0114),
  ("SET_INTERACTION_NULTI_RUOUND_ENABLE", 0x0115),
  ("UPLOAD_PLAY_FULL_DUPLEX_EANBLE", 0x0116),
  ("SET_AUDIO_VOLUME", 0x0117),
  ("SET_AUDIO_COMPRESS_TYPE", 0x0118),
  ("SET_VOLUME_MUTE_STATE", 0x0119),
  ("SET_AUDIO_START_RECORD", 0x011A),
  ("SET_AUDIO_STOP_RECORD", 0x011B),
  ("SET_CLOUD_ANS_TIMEOUT_EXIT_WAKEUP", 0x011C),
  ("NET_PLAY_START", 0x0201),
  ("NET_PLAY_PAUSE", 0x0202),
  ("NET_PLAY_RESUME", 0x0203),
  ("NET_PLAY_STOP", 0x0204),
  ("NET_PLAY_RESTART", 0x0205),
  ("NET_PLAY_NEXT", 0x0206),
  ("NET_PLAY_LOCAL_TTS", 0x0207),
  ("NET_PLAY_END", 0x0208),
  ("NET_PLAY_RECONECT_URL", 0x0209),
  ("PLAY_DATA_GET", 0x020A),
  ("PLAY_DATA_RECV", 0x020B),
  ("PLAY_DATA_END", 0x020C),
  ("PLAY_TTS_END", 0x020D),
  ("PLAY_EMPTY", 0x020E),
  ("PLAY_NEXT", 0x020F),
  ("PLAYING_TTS", 0x0210),
  ("PLAY_RESUME_ERRO", 0x0211),
  ("PLAY_LAST", 0x0212),
  ("PLAY_AUDIO_SIZE", 0x0213),
  ("PLAY_AUDIO_TYPE", 0x0214),
  ("SET_AUDIO_PLAY_MODE", 0x0215),
  ("VAD_START_STOP_PLAY", 0x0216),
  ("LOCAL_AUDIO_PLAY_START", 0x0217),
  ("LOCAL_AUDIO_PLAY_STOP", 0x0218),
  ("QCLOUD_IOT_CMD", 0x0301),
  ("NET_VOLUME", 0x0302),
  ("LOCAL_VOLUME", 0x0303),
  ("VOLUME_INC", 0x0304),
  ("VOLUME_DEC", 0x0305),
  ("VOLUME_MAXI", 0x0306),
  ("VOLUME_MINI", 0x0307),
  ("CIAS_CJSON_DATA", 0x0308),
  ("IOT_VOLUME_MUTE", 0x0309),
  ("IOT_VOLUME_UNMUTE", 0x030A),
  ("IOT_QUITE_WAKE_UP_MODE", 0x030B),
  ("ENTER_NET_CONFIG", 0x0401),
  ("NET_CONFIGING", 0x0402),
  ("EXIT_NET_CONFIG", 0x0403),
  ("INIT_SMARTCONFIG", 0x0404),
  ("WIFI_DISCONNECTED", 0x0405),
  ("WIFI_CONNECTED", 0x0406),
  ("GET_PROFILE", 0x0407),
  ("NEED_PROFILE", 0x0408),
  ("CLOUD_CONNECTED", 0x0409),
  ("CLOUD_DISCONNECTED", 0x040A),
  ("NET_CONFIG_SUCCESS", 0x040B),
  ("NET_CONFIG_FAIL", 0x040C),
  ("NET_CONFIG_CLEAN", 0x040D),
  ("CIAS_OTA_START", 0x0501),
  ("CIAS_OTA_DATA", 0x0502),
  ("CIAS_OTA_SUCESS", 0x0503),
  ("CIAS_FACTORY_START", 0x0504),
  ("CIAS_FACTORY_OK", 0x0505),
  ("CIAS_FACTORY_FAIL", 0x0506),
  ("CIAS_FACTORY_SELF_TEST_START", 0x0507),
  ("CIAS_IR_DATA", 0x0508),
  ("CIAS_IR_LOADING_DATA", 0x0509),
  ("CIAS_IR_LOAD_DATA_OVER", 0x050A),
  ("CIAS_IR_LOAD_DATA_START", 0x050B),
  ("CIAS_FACTORY_TEST_ENG_THR_SET", 0x050C),
  ("CIAS_FACTORY_TEST_ENG_GET", 0x050D),
  ("CIAS_FACTORY_TEST_REAL_VAL_GET", 0x050E),
  ("CIAS_AUDIO_SYS_READY", 0x0601),
  ("CIAS_AUDIO_SYS_ERR", 0x0602),
  ("CIAS_AUDIO_RST", 0x0603),
  ("CWSL_UART_REGISTRATION_WAKE", 0x0701),
  ("CWSL_UART_REGISTRATION_WAKE_ING", 0x0702),
  ("CWSL_UART_REGISTRATION_WAKE_END_SUCCESSFUL", 0x0703),
  ("CWSL_UART_REGISTRATION_WAKE_END_FAILED", 0x0704),
  ("CWSL_UART_REGISTRATION_WAKE_END_FAILED_REASON", 0x0705),
  ("CWSL_UART_DELETE_WAKEUP_WORD", 0x0706),
  ("CIAS_CMD_EXEC_STATE", 0x0801)]

def WAKE_UP : Nat := 0x0102
def VAD_END : Nat := 0x0103
def PCM_MIDDLE : Nat := 0x0105
def PCM_FINISH : Nat := 0x0106
def PCM_IDLE : Nat := 0x0107
def VAD_START : Nat := 0x0108
def EXIT_WAKE_UP : Nat := 0x0109
def SET_VAD_SENSITIVITY : Nat := 0x010A
def VAD_START_BY_KEY : Nat := 0x010B
def VAD_END_BY_KEY : Nat := 0x010C
def PLAY_AUDIO_SIZE : Nat := 0x0213

/-- Namespace of a command code: its high byte. -/
def cmd_namespace (code : Nat) : Nat := code / 256

/-- High bytes occurring in the enumeration, without repetition. -/
def cmd_namespaces : List Nat := ((ci1302_cmd_t.map Prod.snd).map cmd_namespace).dedup

/-! ## Frame codec (`ci1302_protocol_write_bytes`, `ci1302_protocol_recv_frame`)

Only the declarations of the codec are in `ci1302_protocol.h`; the bodies are
modelled from the design text.  Multi-byte header fields are laid out
least-significant byte first, as the packed record is stored on the target. -/

/-- Frame start sentinel (`magic`), `0x5a5aa5a5`. -/
def CIAS_HEAD_MAGIC : Nat := 0x5a5aa5a5

/-- Modelled from the spec: the 16 header bytes of `encode`; the body of
`ci1302_protocol_write_bytes` is missing.  Fields are truncated to their
declared width and written in declaration order. -/
def head_bytes (h : cias_standard_head_t) : List Nat :=
  [h.magic % 256, h.magic / 256 % 256, h.magic / 65536 % 256, h.magic / 16777216 % 256,
   h.checksum % 256, h.checksum / 256 % 256,
   h.type % 256, h.type / 256 % 256,
   h.len % 256, h.len / 256 % 256,
   h.version % 256, h.version / 256 % 256,
   h.fill_data % 256, h.fill_data / 256 % 256, h.fill_data / 65536 % 256,
   h.fill_data / 16777216 % 256]

/-- Modelled from the spec: the bytes the integrity value covers, "header
fields (excluding the checksum field itself) and the payload". -/
def checksum_input (h : cias_standard_head_t) (payload : List Nat) : List Nat :=
  (head_bytes h).take 4 ++ (head_bytes h).drop 6 ++ payload

/-- A 16-bit additive checksum; the design leaves the algorithm open, so the
codec below takes the checksum function as a parameter and this one serves
for concrete evaluation. -/
def sum16 (bs : List Nat) : Nat := bs.sum % 65536

/-- Modelled from the spec: `encode(command, payload, version, fill_tag)`, the
bytes `ci1302_protocol_write_bytes(cmd, frame, len, version, fill_data)` hands
to the transport, with `len = frame.length`.  The body is missing from the
sources. -/
def ci1302_protocol_write_bytes (cksum : List Nat → Nat) (cmd : Nat) (frame : List Nat)
    (version fill_data : Nat) : List Nat :=
  let h0 : cias_standard_head_t :=
    { magic := CIAS_HEAD_MAGIC, checksum := 0, type := cmd % 65536,
      len := frame.length % 65536, version := version % 65536,
      fill_data := fill_data % 4294967296 }
  let h : cias_standard_head_t := { h0 with checksum := cksum (checksum_input h0 frame) % 65536 }
  head_bytes h ++ frame

/-- Modelled from the spec: reading the fixed-size header from the front of a
byte stream; yields the header and the bytes after it. -/
def parse_head : List Nat → Option (cias_standard_head_t × List Nat)
  | m0 :: m1 :: m2 :: m3 :: c0 :: c1 :: t0 :: t1 :: l0 :: l1 :: v0 :: v1 ::
      f0 :: f1 :: f2 :: f3 :: rest =>
    some ({ magic := m0 + 256 * m1 + 65536 * m2 + 16777216 * m3,
            checksum := c0 + 256 * c1,
            type := t0 + 256 * t1,
            len := l0 + 256 * l1,
            version := v0 + 256 * v1,
            fill_data := f0 + 256 * f1 + 65536 * f2 + 16777216 * f3 }, rest)
  | _ => none

/-- Modelled from the spec: one decode attempt at the front of the stream.  The
candidate is accepted when the sentinel matches, `len` is within the maximum
payload `max_payload`, the payload is present, and the recomputed checksum
equals the received one. -/
def try_frame (cksum : List Nat → Nat) (max_payload : Nat) (bs : List Nat) :
    Option (cias_standard_head_t × List Nat) :=
  match parse_head bs with
  | none => none
  | some (h, rest) =>
    if h.magic = CIAS_HEAD_MAGIC ∧ h.len ≤ max_payload ∧ h.len ≤ rest.length ∧
        cksum (checksum_input h (rest.take h.len)) % 65536 = h.checksum
    then some (h, rest.take h.len) else none

/-- Modelled from the spec: `decode(byte_source)`.  A failed attempt drops one
byte and scans on (resynchronisation); an exhausted stream yields nothing. -/
def decode_frame (cksum : List Nat → Nat) (max_payload : Nat) :
    List Nat → Option (cias_standard_head_t × List Nat)
  | [] => none
  | b :: bs =>
    match try_frame cksum max_payload (b :: bs) with
    | some r => some r
    | none => decode_frame cksum max_payload bs

/-- Modelled from the spec: `ci1302_protocol_recv_frame(frame, timeout_ms)` on
the bytes available within the timeout; the body is missing.  The out-parameter
is a `ci1302_uart_frame_t`, filled from the decoded header and payload; `none`
is the timeout result. -/
def ci1302_protocol_recv_frame (cksum : List Nat → Nat) (max_payload : Nat) (bs : List Nat) :
    Option ci1302_uart_frame_t :=
  match decode_frame cksum max_payload bs with
  | none => none
  | some (h, payload) => some { cmd := h.type, buffer := payload, len := h.len }

/-! ## `ci1302.h`: constants, audio status, session state

The bodies of the functions declared in `ci1302.h` are not part of the
sources; the session manager, the flow gate, the dispatcher and the audio
streaming state machine below are modelled from the design text, over the
constants and types the header declares. -/

def CI1302_VAD_FRAME_MS : Nat := 40
def CI1302_VAD_MAX_TIMEOUT_S : Nat := 15
def CI1302_VAD_SENSITIVITY_MAX : Nat := 60
def CI1302_VAD_SENSITIVITY_MIN : Nat := 45
def CI1302_VAD_SENSITIVITY_DEFAULT : Nat := 53
def CI1302_MIC_GAIN_MAX : Nat := 32

/-- The enumeration `ci1302_audio_status_t`. -/
inductive ci1302_audio_status_t where
  | CI1302_AUDIO_START
  | CI1302_AUDIO_RUNNING
  | CI1302_AUDIO_END
  | CI1302_AUDIO_FULL_FRAME
  | CI1302_AUDIO_WAKEUP
  | CI1302_AUDIO_SLEEP
  | CI1302_AUDIO_IDLE
deriving DecidableEq, Repr

open ci1302_audio_status_t

/-- Numeric value of each `ci1302_audio_status_t` enumerator. -/
def ci1302_audio_status_t.val : ci1302_audio_status_t → Nat
  | CI1302_AUDIO_START => 0x00
  | CI1302_AUDIO_RUNNING => 0x01
  | CI1302_AUDIO_END => 0x02
  | CI1302_AUDIO_FULL_FRAME => 0x03
  | CI1302_AUDIO_WAKEUP => 0x04
  | CI1302_AUDIO_SLEEP => 0x05
  | CI1302_AUDIO_IDLE => 0xFF

/-- One invocation of the registered `ci1302_audio_recv_cb_t`:
`(status, data, len)`. -/
structure audio_cb_call where
  status : ci1302_audio_status_t
  data : List Nat
  len : Nat
deriving DecidableEq, Repr

/-- Modelled from the spec: the states of the audio streaming state machine
between callbacks (`Ended` and `FullFrame` return to `Idle` at once). -/
inductive stream_state where
  | Idle
  | Started
  | Running
deriving DecidableEq, Repr

/-- Modelled from the spec: the events the dispatcher feeds to the audio
streaming state machine. -/
inductive audio_event where
  | start
  | chunk
  | finish
  | full_frame
  | wakeup
  | sleep
deriving DecidableEq, Repr

/-- Modelled from the spec: `SessionState` together with the link state the
functions of `ci1302.h` work on; the implementation file is missing.
`stream` is the capture stream state, `empty_size` the free buffer size last
reported by the chip, `audio_recv_cb` whether a callback is registered. -/
structure ci1302_state where
  in_wakeup : Bool
  wakeup_keep_ms : Nat
  sleep_timeout_s : Nat
  vad_timeout_s : Nat
  vad_sensitivity : Nat
  vad_fix_interval_s : Nat
  volume : Nat
  duplex_enabled : Bool
  audio_in_playing : Bool
  stream : stream_state
  empty_size : Nat
  audio_recv_cb : Bool
deriving DecidableEq, Repr

/-- Modelled from the spec: the session state after `ci1302_init`: asleep, no
stream open, no callback registered, sensitivity at its default. -/
def ci1302_init_state : ci1302_state :=
  { in_wakeup := false, wakeup_keep_ms := 0, sleep_timeout_s := 0, vad_timeout_s := 0,
    vad_sensitivity := CI1302_VAD_SENSITIVITY_DEFAULT, vad_fix_interval_s := 0,
    volume := 0, duplex_enabled := false, audio_in_playing := false,
    stream := stream_state.Idle, empty_size := 0, audio_recv_cb := false }

/-- Modelled from the spec: `ci1302_set_audio_recv_callback` with a non-null
callback. -/
def ci1302_set_audio_recv_callback (s : ci1302_state) : ci1302_state :=
  { s with audio_recv_cb := true }

/-- Modelled from the spec: `ci1302_vad_sensitivity_cfg(sensitivity)`; the body
is missing.  A value outside `[CI1302_VAD_SENSITIVITY_MIN,
CI1302_VAD_SENSITIVITY_MAX]` is rejected before any frame is emitted; an
accepted value is stored and sent as one `SET_VAD_SENSITIVITY` frame with a
one-byte payload.  The result is the new state and the frames written to the
transport. -/
def ci1302_vad_sensitivity_cfg (cksum : List Nat → Nat) (s : ci1302_state)
    (sensitivity : Nat) : ci1302_state × List (List Nat) :=
  if sensitivity < CI1302_VAD_SENSITIVITY_MIN ∨ CI1302_VAD_SENSITIVITY_MAX < sensitivity then
    (s, [])
  else
    ({ s with vad_sensitivity := sensitivity },
     [ci1302_protocol_write_bytes cksum SET_VAD_SENSITIVITY [sensitivity] UART_VERSION DEF_FILL])

/-- Modelled from the spec: `ci1302_flow_get_write_enable(need_empty_size)`; the
body is missing.  Returns 0 when the free space last reported by the chip is
less than `need_empty_size`, 1 otherwise. -/
def ci1302_flow_get_write_enable (s : ci1302_state) (need_empty_size : Nat) : Nat :=
  if s.empty_size < need_empty_size then 0 else 1

/-- Modelled from the spec: `ci1302_in_wakeup()`. -/
def ci1302_in_wakeup (s : ci1302_state) : Bool := s.in_wakeup

/-- Modelled from the spec: one transition of the audio streaming state machine
(section 4.4), with the callbacks it emits in order.  `data`/`len` are the
payload of the frame that caused the event.  A START while a stream is open
closes the stale stream first; SLEEP while a stream is open closes it before
the SLEEP callback; WAKEUP leaves the stream as it is.  Events the design gives
no transition for (a chunk or a terminal event with no stream open) are not
legal and yield `none`. -/
def audio_step (st : stream_state) (ev : audio_event) (data : List Nat) (len : Nat) :
    Option (stream_state × List audio_cb_call) :=
  match ev, st with
  | audio_event.start, stream_state.Idle =>
    some (stream_state.Started, [⟨CI1302_AUDIO_START, data, len⟩])
  | audio_event.start, _ =>
    some (stream_state.Started, [⟨CI1302_AUDIO_END, [], 0⟩, ⟨CI1302_AUDIO_START, data, len⟩])
  | audio_event.chunk, stream_state.Idle => none
  | audio_event.chunk, _ =>
    some (stream_state.Running, [⟨CI1302_AUDIO_RUNNING, data, len⟩])
  | audio_event.finish, stream_state.Idle => none
  | audio_event.finish, _ =>
    some (stream_state.Idle, [⟨CI1302_AUDIO_END, data, len⟩])
  | audio_event.full_frame, stream_state.Idle => none
  | audio_event.full_frame, _ =>
    some (stream_state.Idle, [⟨CI1302_AUDIO_FULL_FRAME, data, len⟩])
  | audio_event.wakeup, st => some (st, [⟨CI1302_AUDIO_WAKEUP, data, len⟩])
  | audio_event.sleep, stream_state.Idle =>
    some (stream_state.Idle, [⟨CI1302_AUDIO_SLEEP, data, len⟩])
  | audio_event.sleep, _ =>
    some (stream_state.Idle, [⟨CI1302_AUDIO_END, [], 0⟩, ⟨CI1302_AUDIO_SLEEP, data, len⟩])

/-- Modelled from the spec: running the state machine over an event sequence;
`none` as soon as an event is not legal in the state it arrives in. -/
def audio_run : stream_state → List (audio_event × List Nat) →
    Option (stream_state × List audio_cb_call)
  | st, [] => some (st, [])
  | st, (ev, data) :: evs =>
    match audio_step st ev data data.length with
    | none => none
    | some (st1, cbs) =>
      match audio_run st1 evs with
      | none => none
      | some (st2, cbs2) => some (st2, cbs ++ cbs2)

/-- Reading a callback trace from left to right with a flag saying whether a
stream is open: a START must find no stream open and opens one, a terminal
callback (END or FULL_FRAME) must find one open and closes it, a SLEEP must
find none open.  Yields the flag after the trace, `none` on a violation. -/
def stream_scan : Bool → List audio_cb_call → Option Bool
  | o, [] => some o
  | o, cb :: cbs =>
    match cb.status with
    | CI1302_AUDIO_START => if o then none else stream_scan true cbs
    | CI1302_AUDIO_END => if o then stream_scan false cbs else none
    | CI1302_AUDIO_FULL_FRAME => if o then stream_scan false cbs else none
    | CI1302_AUDIO_SLEEP => if o then none else stream_scan false cbs
    | _ => stream_scan o cbs

/-- Number of callbacks in a trace that carry the given status. -/
def count_status (st : ci1302_audio_status_t) (cbs : List audio_cb_call) : Nat :=
  (cbs.filter (fun cb => cb.status = st)).length

/-- Modelled from the spec: the dispatcher's classification of audio-session
command codes (section 4.3, item 1).  `WAKE_UP` and `EXIT_WAKE_UP` are the
session-level WAKEUP and SLEEP events, as in the scenario of section 8; a
stream is opened by `VAD_START` or `VAD_START_BY_KEY`. -/
def audio_event_of_cmd (cmd : Nat) : Option audio_event :=
  if cmd = VAD_START ∨ cmd = VAD_START_BY_KEY then some audio_event.start
  else if cmd = PCM_MIDDLE then some audio_event.chunk
  else if cmd = PCM_FINISH ∨ cmd = VAD_END ∨ cmd = VAD_END_BY_KEY then some audio_event.finish
  else if cmd = WAKE_UP then some audio_event.wakeup
  else if cmd = EXIT_WAKE_UP then some audio_event.sleep
  else none

/-- Modelled from the spec: dispatching one received frame; the body of the
reader task is missing.  Audio-session commands drive the state machine and
the callbacks go to the registered callback (none is invoked when no callback
is registered); `WAKE_UP` and `EXIT_WAKE_UP` reconcile `in_wakeup`; a command
with no audio meaning, or one not legal in the current stream state, leaves
the state alone and invokes nothing. -/
def ci1302_dispatch (s : ci1302_state) (f : ci1302_uart_frame_t) :
    ci1302_state × List audio_cb_call :=
  match audio_event_of_cmd f.cmd with
  | none => (s, [])
  | some ev =>
    match audio_step s.stream ev f.buffer f.len with
    | none => (s, [])
    | some (st1, cbs) =>
      let s1 : ci1302_state := { s with stream := st1 }
      let s2 : ci1302_state :=
        if ev = audio_event.wakeup then { s1 with in_wakeup := true }
        else if ev = audio_event.sleep then { s1 with in_wakeup := false }
        else s1
      (s2, if s.audio_recv_cb then cbs else [])

/-- Whether a stream is open in a state of the audio state machine. -/
def stream_open : stream_state → Bool
  | stream_state.Idle => false
  | _ => true

/-! ## `main.c`: the CI1302 calls made by `app_main` -/

/-- A call from `app_main` into the CI1302 driver; `ci1302_wait_startup` is
recorded with the value it returned. -/
inductive call where
  | ci1302_init
  | ci1302_set_audio_recv_callback
  | ci1302_wait_startup (ret : Bool)
  | ci1302_into_sleep_mode (is_notify : Nat)
  | ci1302_reset
  | ci1302_set_upload_while_playing (is_enable : Nat)
  | ci1302_vad_timeout_cfg (timeout_s : Nat)
  | ci1302_into_wakeup_mode (is_notify : Nat)
  | ci1302_sleep_timeout_cfg (sleep_timeout_sec : Nat)
deriving DecidableEq, Repr

/-- The configuration commands among the driver calls: timeouts, duplex mode,
entering wake or sleep. -/
def is_config_cmd : call → Bool
  | call.ci1302_into_sleep_mode _ => true
  | call.ci1302_set_upload_while_playing _ => true
  | call.ci1302_vad_timeout_cfg _ => true
  | call.ci1302_into_wakeup_mode _ => true
  | call.ci1302_sleep_timeout_cfg _ => true
  | _ => false

/-- One pass of the `for (;;)` loop of `app_main` on the character read by
`scanf`: the driver calls it makes (calls into other components are left
out). -/
def app_main_loop_iter (input : Char) : List call :=
  if input = 'm' then []
  else if input = 'd' then []
  else if input = 'p' then []
  else if input = 'e' then []
  else if input = 'c' then [call.ci1302_into_sleep_mode 1]
  else if input = 'a' then []
  else if input = 'r' then [call.ci1302_reset]
  else if input = 's' then []
  else if input = 'l' then []
  else if input = 'f' then [call.ci1302_set_upload_while_playing 1]
  else if input = 'g' then [call.ci1302_set_upload_while_playing 0]
  else if input = 'h' then [call.ci1302_vad_timeout_cfg 10]
  else if input = 'j' then [call.ci1302_into_wakeup_mode 1]
  else if input = 'k' then []
  else if input = 'v' then [call.ci1302_sleep_timeout_cfg 5]
  else if input = 'b' then []
  else []

/-- The loop of `app_main` over the characters read in successive passes. -/
def app_main_loop : List Char → List call
  | [] => []
  | input :: inputs => app_main_loop_iter input ++ app_main_loop inputs

/-- The driver calls of `app_main`, in order: `ci1302_init`,
`ci1302_set_audio_recv_callback`, `ci1302_wait_startup(portMAX_DELAY)` whose
returned value `startup` is discarded, then the loop.  `startup` is what the
handshake returned; `inputs` are the characters read by the first passes of
the loop. -/
def app_main (startup : Bool) (inputs : List Char) : List call :=
  [call.ci1302_init, call.ci1302_set_audio_recv_callback, call.ci1302_wait_startup startup] ++
    app_main_loop inputs

/-- The handshake returned success. -/
def startup_succeeded : call → Bool
  | call.ci1302_wait_startup true => true
  | _ => false

/-- The handshake returned, with either result. -/
def startup_returned : call → Bool
  | call.ci1302_wait_startup _ => true
  | _ => false

/-- Every configuration command of the trace comes after a call satisfying
`gate`; `seen` says whether such a call lies before the trace. -/
def gated_by (gate : call → Bool) : Bool → List call → Bool
  | _, [] => true
  | seen, c :: cs => (!is_config_cmd c || seen) && gated_by gate (seen || gate c) cs

/-! ## `bat.c`: battery percentage and the update task -/

def BAT_EVENT_LOW_POWER : Nat := 1
def BAT_EVENT_CRITICAL : Nat := 2
def BAT_EVENT_USB_PLUG : Nat := 3
def BAT_EVENT_USB_UNPLUG : Nat := 4
def BAT_EVENT_CHARGE_FULL : Nat := 5
def BAT_EVENT_PERCENT_CHANGE : Nat := 6

/-- The function `bat_volt_calculate_percent`.  The `double` arithmetic is
taken over the rationals with the coefficients as exact decimals; the
conversion to `uint8_t` truncates toward zero and keeps the low eight bits. -/
def bat_volt_calculate_percent (volt_mv : Nat) : Nat :=
  let x : ℚ := (volt_mv : ℚ) / 1000.0
  let y : ℚ :=
    if x < 3.45 then 0
    else if x ≥ 3.4 ∧ x ≤ 3.59 then 0.0882 * x * x - 0.4418 * x + 0.5476
    else if x > 3.59 ∧ x ≤ 4.049 then
      -5.5508 * x * x * x + 64.741 * x * x - 249.57 * x + 318.5
    else if x > 4.049 ∧ x ≤ 4.2 then -2.8846 * x * x + 24.51 * x - 51.049
    else 1
  let y : ℚ := if y < 0 then 0 else y
  let y_mapped : Nat := Int.toNat ⌊y * 100⌋ % 256
  if y_mapped > 100 then 100 else y_mapped

/-- The local `y` of `bat_volt_calculate_percent` after the clamp at zero, as
a function of the voltage (the same expression as in the function above). -/
def bat_volt_curve (volt_mv : Nat) : ℚ :=
  let x : ℚ := (volt_mv : ℚ) / 1000.0
  let y : ℚ :=
    if x < 3.45 then 0
    else if x ≥ 3.4 ∧ x ≤ 3.59 then 0.0882 * x * x - 0.4418 * x + 0.5476
    else if x > 3.59 ∧ x ≤ 4.049 then
      -5.5508 * x * x * x + 64.741 * x * x - 249.57 * x + 318.5
    else if x > 4.049 ∧ x ≤ 4.2 then -2.8846 * x * x + 24.51 * x - 51.049
    else 1
  if y < 0 then 0 else y

/-- The function `bat_take_average`: copy the first `num` voltages, sort the
copy ascending (`qsort` with `compare_uint32`), add up the entries at indices
`3 .. num - 4` in 32-bit arithmetic and divide by `num - 6`. -/
def bat_take_average (volt_list : List Nat) (num : Nat) : Nat :=
  let volt_new := (volt_list.take num).insertionSort (fun a b => a ≤ b)
  let bound := (num + 4294967296 - 3) % 4294967296
  let volt_total := (List.range' 3 (bound - 3)).foldl
    (fun total i => (total + volt_new.getD i 0) % 4294967296) 0
  volt_total / ((num + 4294967296 - 6) % 4294967296)

/-- Locals of `bat_update_task` that live across loop passes, with the
globals the task writes. -/
structure bat_task_t where
  bat_average : List Nat
  bat_ave_pos : Nat
  last_percent : Nat
  low_power_notified : Nat
  critical_power_notified : Nat
  g_bat_voltage : Nat
  g_bat_charge_full : Nat
  g_bat_percent : Nat
deriving DecidableEq, Repr

/-- The local `bat_average_num` of `bat_update_task`. -/
def bat_average_num : Nat := 12

/-- State of `bat_update_task` on entering the `while (1)` loop: the buffer
holds the start-up readings, nothing has been notified, `last_percent` is 0. -/
def bat_task_init (readings : List Nat) : bat_task_t :=
  { bat_average := readings, bat_ave_pos := 0, last_percent := 0,
    low_power_notified := 0, critical_power_notified := 0,
    g_bat_voltage := 0, g_bat_charge_full := 0, g_bat_percent := 0 }

/-- One pass of the `while (1)` loop of `bat_update_task`.  `cb` says whether
`g_bat_event_callback` is non-null during the pass, `voltage` is the value
read by `bat_adc_volt_read_single`.  Yields the state after the pass and the
callback invocations `(event_type, data)` in order. -/
def bat_update_iter (cb : Bool) (voltage : Nat) (s : bat_task_t) :
    bat_task_t × List (Nat × Nat) :=
  let bat_average := s.bat_average.set s.bat_ave_pos voltage
  let bat_ave_pos := if s.bat_ave_pos = bat_average_num - 1 then 0 else s.bat_ave_pos + 1
  let bat_ave := bat_take_average bat_average bat_average_num
  let g_bat_voltage := bat_ave
  let g_bat_percent := bat_volt_calculate_percent g_bat_voltage
  let ev_change : List (Nat × Nat) :=
    if g_bat_percent ≠ s.last_percent ∧ cb = true then
      [(BAT_EVENT_PERCENT_CHANGE, g_bat_percent)] else []
  let low_fire : Bool :=
    decide (g_bat_percent ≤ 20 ∧ s.low_power_notified = 0 ∧ cb = true)
  let ev_low : List (Nat × Nat) :=
    if low_fire then [(BAT_EVENT_LOW_POWER, g_bat_percent)] else []
  let low_power_notified := if low_fire then 1 else s.low_power_notified
  let low_power_notified := if g_bat_percent > 20 then 0 else low_power_notified
  let critical_fire : Bool :=
    decide (g_bat_percent ≤ 5 ∧ s.critical_power_notified = 0 ∧ cb = true)
  let ev_critical : List (Nat × Nat) :=
    if critical_fire then [(BAT_EVENT_CRITICAL, g_bat_percent)] else []
  let critical_power_notified := if critical_fire then 1 else s.critical_power_notified
  let critical_power_notified := if g_bat_percent > 5 then 0 else critical_power_notified
  ({ bat_average := bat_average, bat_ave_pos := bat_ave_pos, last_percent := g_bat_percent,
     low_power_notified := low_power_notified,
     critical_power_notified := critical_power_notified,
     g_bat_voltage := g_bat_voltage, g_bat_charge_full := 0,
     g_bat_percent := g_bat_percent },
   ev_change ++ ev_low ++ ev_critical)

/-- The `while (1)` loop of `bat_update_task` over the first passes: for each
pass, the percentage it computed and the events it emitted. -/
def bat_update_task : bat_task_t → List (Bool × Nat) → List (Nat × List (Nat × Nat))
  | _, [] => []
  | s, (cb, voltage) :: rest =>
    ((bat_update_iter cb voltage s).1.g_bat_percent, (bat_update_iter cb voltage s).2) ::
      bat_update_task (bat_update_iter cb voltage s).1 rest

/-- Percentage computed in pass `k` of a run of the task. -/
def iter_percent (out : List (Nat × List (Nat × Nat))) (k : Nat) : Nat :=
  (out.getD k (0, [])).1

/-- Whether pass `k` of a run of the task emitted an event of type `ev`. -/
def iter_emits (ev : Nat) (out : List (Nat × List (Nat × Nat))) (k : Nat) : Bool :=
  (out.getD k (0, [])).2.any (fun e => e.1 == ev)

/-- A run of `bat_update_task` from its start with an event callback
registered throughout: `readings` fill the buffer before the loop, `voltages`
are read in the successive passes. -/
def bat_task_run (readings voltages : List Nat) : List (Nat × List (Nat × Nat)) :=
  bat_update_task (bat_task_init readings) (voltages.map (fun v => (true, v)))

/-- Events emitted in pass `k` of a run of the task, in order. -/
def iter_events (out : List (Nat × List (Nat × Nat))) (k : Nat) : List (Nat × Nat) :=
  (out.getD k (0, [])).2

/-- The function `bat_get_percent`: the global `g_bat_percent`. -/
def bat_get_percent (s : bat_task_t) : Nat := s.g_bat_percent

/-- The function `bat_get_usb_valid`: always 0 (the hardware cannot detect USB
power). -/
def bat_get_usb_valid : Nat := 0

/-- The function `bat_get_volt_mv`: the global `g_bat_voltage`. -/
def bat_get_volt_mv (s : bat_task_t) : Nat := s.g_bat_voltage

/-- The function `bat_in_charge`: always 0 (the hardware cannot detect
charging). -/
def bat_in_charge : Nat := 0

/-! ## `bat_status.c` -/

/-- Conversion of an integer to C `bool`: 0 stays 0, anything else is 1. -/
def to_bool (v : Nat) : Nat := if v = 0 then 0 else 1

/-- Memory as seen through the output pointers: the value held at each
address.  Address 0 is `NULL`. -/
abbrev memory := Nat → Nat

/-- The assignment `*p = v`. -/
def store (m : memory) (p v : Nat) : memory := fun a => if a = p then v else m a

/-- The function `get_battery_info`: each output pointer is tested and, when
non-null, written with the matching getter, in the order percent, voltage,
charging, USB.  Yields the battery state and the memory after the call. -/
def get_battery_info (s : bat_task_t) (m : memory)
    (percent voltage_mv is_charging usb_connected : Nat) : bat_task_t × memory :=
  let m := if percent ≠ 0 then store m percent (bat_get_percent s) else m
  let m := if voltage_mv ≠ 0 then store m voltage_mv (bat_get_volt_mv s) else m
  let m := if is_charging ≠ 0 then store m is_charging (to_bool bat_in_charge) else m
  let m := if usb_connected ≠ 0 then store m usb_connected (to_bool bat_get_usb_valid) else m
  (s, m)

/-- The function `should_enter_power_saving_mode`:
`return (percent <= 20 && !usb_connected);`. -/
def should_enter_power_saving_mode (s : bat_task_t) : Bool :=
  let percent := bat_get_percent s
  let usb_connected := to_bool bat_get_usb_valid
  decide (percent ≤ 20) && decide (usb_connected = 0)

/-! ## `main.c`: the button repeat callback -/

/-- Effects of `btn_repeat_callback_cb` on the rest of the system. -/
inductive sys_call where
  | storage_nvs_erase_key (key : String)
  | esp_restart
  | ESP_LOGE (repeat_count : Nat)
deriving DecidableEq, Repr

/-- The function `btn_repeat_callback_cb`, on the count returned by
`qmsd_button_get_repeat`.  `esp_restart` does not return, so nothing is logged
after it. -/
def btn_repeat_callback_cb (repeat_count : Nat) : List sys_call :=
  if repeat_count > 5 then
    [sys_call.storage_nvs_erase_key "wifiCfg", sys_call.esp_restart]
  else
    [sys_call.ESP_LOGE repeat_count]

/-- Percentage of the pass before pass `k` of a run of the task from its
start, taken as 0 (the initial `last_percent`) before the first pass. -/
def prev_percent (out : List (Nat × List (Nat × Nat))) (k : Nat) : Nat :=
  if k = 0 then 0 else iter_percent out (k - 1)

end CI1302

/-! # Theorems -/

namespace CI1302

open ci1302_audio_status_t

theorem head_bytes_length (h : cias_standard_head_t) : (head_bytes h).length = 16 := rfl

theorem parse_head_head_bytes (h : cias_standard_head_t) (rest : List Nat) :
    parse_head (head_bytes h ++ rest) =
      some ({ magic := h.magic % 4294967296, checksum := h.checksum % 65536,
              type := h.type % 65536, len := h.len % 65536,
              version := h.version % 65536,
              fill_data := h.fill_data % 4294967296 }, rest) := by
  simp only [head_bytes, List.cons_append, List.nil_append, parse_head, Option.some.injEq,
    Prod.mk.injEq, cias_standard_head_t.mk.injEq, and_true]
  refine ⟨?_, ?_, ?_, ?_, ?_, ?_⟩ <;> omega

theorem checksum_input_checksum (h : cias_standard_head_t) (c : Nat) (p : List Nat) :
    checksum_input { h with checksum := c } p = checksum_input h p := rfl

theorem checksum_input_mod (h : cias_standard_head_t) (p : List Nat) :
    checksum_input { magic := h.magic % 4294967296, checksum := h.checksum % 65536,
                     type := h.type % 65536, len := h.len % 65536,
                     version := h.version % 65536,
                     fill_data := h.fill_data % 4294967296 } p = checksum_input h p := by
  simp only [checksum_input, head_bytes, List.take, List.drop, List.cons_append,
    List.nil_append, List.cons.injEq, and_true]
  refine ⟨?_, ?_, ?_, ?_, ?_, ?_, ?_, ?_, ?_, ?_, ?_, ?_, ?_, ?_⟩ <;> omega

/-- One decode attempt on an encoded frame accepts it and returns the header
that was written together with the payload. -/
theorem try_frame_write_bytes (cksum : List Nat → Nat) (max_payload cmd : Nat)
    (payload : List Nat) (version fill : Nat)
    (hlen : payload.length ≤ max_payload) (hmax : max_payload ≤ 65535) :
    try_frame cksum max_payload (ci1302_protocol_write_bytes cksum cmd payload version fill) =
      some ({ magic := CIAS_HEAD_MAGIC,
              checksum := cksum (checksum_input
                { magic := CIAS_HEAD_MAGIC, checksum := 0, type := cmd % 65536,
                  len := payload.length % 65536, version := version % 65536,
                  fill_data := fill % 4294967296 } payload) % 65536,
              type := cmd % 65536, len := payload.length, version := version % 65536,
              fill_data := fill % 4294967296 }, payload) := by
  have hl : payload.length % 65536 = payload.length := Nat.mod_eq_of_lt (by omega)
  unfold try_frame ci1302_protocol_write_bytes
  simp only [parse_head_head_bytes]
  have hm : CIAS_HEAD_MAGIC % 4294967296 = CIAS_HEAD_MAGIC := by decide
  simp only [Nat.mod_mod, hm, hl, List.take_length, le_refl, hlen, true_and]
  rw [if_pos]
  exact congrArg (fun t => cksum t % 65536) (checksum_input_checksum _ _ _).symm

theorem decode_frame_write_bytes (cksum : List Nat → Nat) (max_payload cmd : Nat)
    (payload : List Nat) (version fill : Nat)
    (hlen : payload.length ≤ max_payload) (hmax : max_payload ≤ 65535) :
    decode_frame cksum max_payload
        (ci1302_protocol_write_bytes cksum cmd payload version fill) =
      some ({ magic := CIAS_HEAD_MAGIC,
              checksum := cksum (checksum_input
                { magic := CIAS_HEAD_MAGIC, checksum := 0, type := cmd % 65536,
                  len := payload.length % 65536, version := version % 65536,
                  fill_data := fill % 4294967296 } payload) % 65536,
              type := cmd % 65536, len := payload.length, version := version % 65536,
              fill_data := fill % 4294967296 }, payload) := by
  have h := try_frame_write_bytes cksum max_payload cmd payload version fill hlen hmax
  obtain ⟨b, bs, hb⟩ : ∃ b bs, ci1302_protocol_write_bytes cksum cmd payload version fill = b :: bs :=
    ⟨_, _, rfl⟩
  rw [hb] at h ⊢
  rw [decode_frame, h]

theorem recv_frame_write_bytes (cksum : List Nat → Nat) (max_payload cmd : Nat)
    (payload : List Nat) (version fill : Nat)
    (hlen : payload.length ≤ max_payload) (hmax : max_payload ≤ 65535) :
    ci1302_protocol_recv_frame cksum max_payload
        (ci1302_protocol_write_bytes cksum cmd payload version fill) =
      some { cmd := cmd % 65536, buffer := payload, len := payload.length } := by
  rw [ci1302_protocol_recv_frame,
    decode_frame_write_bytes cksum max_payload cmd payload version fill hlen hmax]

/-- A concrete decode: noise that contains half a sentinel, then a `PCM_MIDDLE`
frame with three payload bytes, then trailing bytes.  The decoder scans past
the noise and returns the frame. -/
theorem recv_frame_resync_example :
    ci1302_protocol_recv_frame sum16 65535
        ([1, 2, 0xa5, 0xa5, 0x5a, 0x5a] ++
          ci1302_protocol_write_bytes sum16 PCM_MIDDLE [1, 2, 3] UART_VERSION DEF_FILL ++
          [9, 9]) =
      some { cmd := PCM_MIDDLE, buffer := [1, 2, 3], len := 3 } := by
  decide

/-- C1 (as amended): for every checksum function, every maximum payload size up
to 65535, every 16-bit command code and every payload no longer than the
maximum, `ci1302_protocol_recv_frame` applied to the bytes produced by
`ci1302_protocol_write_bytes` returns a frame with the same command, the same
payload and `len` equal to the payload length; the version and the fill tag
(when they fit their fields) are recovered in the decoded header, which the
received-frame record does not carry. -/
theorem frame_codec_roundtrip (cksum : List Nat → Nat) (max_payload cmd : Nat)
    (payload : List Nat) (version fill : Nat)
    (hcmd : cmd < 65536) (hlen : payload.length ≤ max_payload) (hmax : max_payload ≤ 65535) :
    ci1302_protocol_recv_frame cksum max_payload
        (ci1302_protocol_write_bytes cksum cmd payload version fill) =
      some { cmd := cmd, buffer := payload, len := payload.length } ∧
    (version < 65536 → fill < 4294967296 →
      ∃ c, decode_frame cksum max_payload
          (ci1302_protocol_write_bytes cksum cmd payload version fill) =
        some ({ magic := CIAS_HEAD_MAGIC, checksum := c, type := cmd,
                len := payload.length, version := version, fill_data := fill }, payload)) := by
  constructor
  · rw [recv_frame_write_bytes cksum max_payload cmd payload version fill hlen hmax,
      Nat.mod_eq_of_lt hcmd]
  · intro hv hf
    rw [decode_frame_write_bytes cksum max_payload cmd payload version fill hlen hmax,
      Nat.mod_eq_of_lt hcmd, Nat.mod_eq_of_lt hv, Nat.mod_eq_of_lt hf]
    exact ⟨_, rfl⟩

/-- C1 witness: `WAKE_UP` (0x0102), empty payload, version `UART_VERSION`, fill
`DEF_FILL`, with the additive checksum and the largest maximum payload. -/
theorem frame_codec_roundtrip_witness :
    ci1302_protocol_recv_frame sum16 65535
        (ci1302_protocol_write_bytes sum16 WAKE_UP [] UART_VERSION DEF_FILL) =
      some { cmd := WAKE_UP, buffer := [], len := 0 } ∧
    (UART_VERSION < 65536 → DEF_FILL < 4294967296 →
      ∃ c, decode_frame sum16 65535
          (ci1302_protocol_write_bytes sum16 WAKE_UP [] UART_VERSION DEF_FILL) =
        some ({ magic := CIAS_HEAD_MAGIC, checksum := c, type := WAKE_UP,
                len := 0, version := UART_VERSION, fill_data := DEF_FILL }, [])) :=
  frame_codec_roundtrip sum16 65535 WAKE_UP [] UART_VERSION DEF_FILL (by decide) (by decide)
    (by decide)

/-- C1 counterexample: the frame returned by `ci1302_protocol_recv_frame` does
not determine the version and fill tag that were encoded.  Encoding `WAKE_UP`
with an empty payload under fill `DEF_FILL` and under fill `INVAILD_SPEAK`
decodes to one and the same frame, so no reading of the returned frame gives
back both fill tags. -/
theorem recv_frame_drops_version_fill :
    ¬ ∃ g : ci1302_uart_frame_t → Nat × Nat, ∀ version fill : Nat,
        version < 65536 → fill < 4294967296 →
        Option.map g (ci1302_protocol_recv_frame sum16 65535
          (ci1302_protocol_write_bytes sum16 WAKE_UP [] version fill)) =
            some (version, fill) := by
  rintro ⟨g, hg⟩
  have h1 := hg UART_VERSION DEF_FILL (by decide) (by decide)
  have h2 := hg UART_VERSION INVAILD_SPEAK (by decide) (by decide)
  rw [recv_frame_write_bytes sum16 65535 WAKE_UP [] _ _ (by decide) (by decide)] at h1 h2
  rw [h1] at h2
  revert h2
  decide

/-- C2: the packed wire header occupies 16 bytes; its members sit at offsets
0 (magic, 4 bytes), 4 (checksum, 2), 6 (type, 2), 8 (len, 2), 10 (version, 2)
and 12 (fill_data, 4); the serialised header has that size, and the `len` it
carries is the two-byte truncation of the field, hence at most 65535. -/
theorem cias_standard_head_t_layout :
    packed_sizeof cias_standard_head_t_members = 16 ∧
    packed_layout 0 cias_standard_head_t_members =
      [("magic", 0, 4), ("checksum", 4, 2), ("type", 6, 2), ("len", 8, 2),
       ("version", 10, 2), ("fill_data", 12, 4)] ∧
    (∀ h : cias_standard_head_t,
      (head_bytes h).length = packed_sizeof cias_standard_head_t_members) ∧
    (∀ (h : cias_standard_head_t) (rest : List Nat),
      ∃ h1, parse_head (head_bytes h ++ rest) = some (h1, rest) ∧
        h1.len = h.len % 2 ^ 16 ∧ h1.len ≤ 65535) := by
  refine ⟨by decide, by decide, fun h => rfl, fun h rest => ?_⟩
  refine ⟨_, parse_head_head_bytes h rest, rfl, ?_⟩
  show h.len % 65536 ≤ 65535
  omega

set_option maxRecDepth 100000 in
/-- C8 (as amended): the high bytes occurring in `ci1302_cmd_t` are exactly
0x01 .. 0x08, eight namespaces, and every enumerator belongs to one of them. -/
theorem cmd_namespaces_eight :
    cmd_namespaces = [1, 2, 3, 4, 5, 6, 7, 8] ∧ cmd_namespaces.length = 8 ∧
    ci1302_cmd_t.all (fun e => decide (cmd_namespace e.2 ∈ cmd_namespaces)) = true := by
  refine ⟨by decide, by decide, by decide⟩

set_option maxRecDepth 100000 in
/-- C8 counterexample: the set of high bytes of the enumeration does not have
six elements. -/
theorem cmd_namespaces_not_six : ¬ (cmd_namespaces.length = 6) := by
  decide

/-! ## Session manager and flow gate -/

/-- The sensitivity bound holds after `ci1302_init`, and both the sensitivity
setter (with any argument) and the dispatcher (with any frame) keep it. -/
theorem vad_sensitivity_invariant (cksum : List Nat → Nat) :
    (CI1302_VAD_SENSITIVITY_MIN ≤ ci1302_init_state.vad_sensitivity ∧
      ci1302_init_state.vad_sensitivity ≤ CI1302_VAD_SENSITIVITY_MAX) ∧
    (∀ (s : ci1302_state) (v : Nat),
      (CI1302_VAD_SENSITIVITY_MIN ≤ s.vad_sensitivity ∧
        s.vad_sensitivity ≤ CI1302_VAD_SENSITIVITY_MAX) →
      (CI1302_VAD_SENSITIVITY_MIN ≤ (ci1302_vad_sensitivity_cfg cksum s v).1.vad_sensitivity ∧
        (ci1302_vad_sensitivity_cfg cksum s v).1.vad_sensitivity ≤
          CI1302_VAD_SENSITIVITY_MAX)) ∧
    (∀ (s : ci1302_state) (f : ci1302_uart_frame_t),
      (ci1302_dispatch s f).1.vad_sensitivity = s.vad_sensitivity) := by
  refine ⟨by decide, ?_, ?_⟩
  · intro s v hs
    unfold ci1302_vad_sensitivity_cfg
    split
    · exact hs
    · rename_i h
      simp only [not_or, not_lt] at h
      exact h
  · intro s f
    unfold ci1302_dispatch
    split
    · rfl
    · split
      · rfl
      · dsimp only
        split
        · rfl
        · split <;> rfl

/-- C3: a sensitivity outside [45, 60] is rejected by
`ci1302_vad_sensitivity_cfg` before any frame is emitted: nothing is written
to the transport, the session state (its `vad_sensitivity` included) is
unchanged, and the sensitivity is still within [45, 60]. -/
theorem vad_sensitivity_cfg_rejects (cksum : List Nat → Nat) (s : ci1302_state)
    (sensitivity : Nat)
    (hout : sensitivity < 45 ∨ 60 < sensitivity)
    (hinv : 45 ≤ s.vad_sensitivity ∧ s.vad_sensitivity ≤ 60) :
    (ci1302_vad_sensitivity_cfg cksum s sensitivity).2 = [] ∧
    (ci1302_vad_sensitivity_cfg cksum s sensitivity).1 = s ∧
    (ci1302_vad_sensitivity_cfg cksum s sensitivity).1.vad_sensitivity = s.vad_sensitivity ∧
    45 ≤ (ci1302_vad_sensitivity_cfg cksum s sensitivity).1.vad_sensitivity ∧
    (ci1302_vad_sensitivity_cfg cksum s sensitivity).1.vad_sensitivity ≤ 60 := by
  have h : ci1302_vad_sensitivity_cfg cksum s sensitivity = (s, []) := by
    unfold ci1302_vad_sensitivity_cfg
    rw [if_pos]
    exact hout
  rw [h]
  exact ⟨rfl, rfl, rfl, hinv.1, hinv.2⟩

/-- C3 witness: sensitivity 70 requested in the state after `ci1302_init`. -/
theorem vad_sensitivity_cfg_rejects_witness :
    (ci1302_vad_sensitivity_cfg sum16 ci1302_init_state 70).2 = [] ∧
    (ci1302_vad_sensitivity_cfg sum16 ci1302_init_state 70).1 = ci1302_init_state ∧
    (ci1302_vad_sensitivity_cfg sum16 ci1302_init_state 70).1.vad_sensitivity =
      ci1302_init_state.vad_sensitivity ∧
    45 ≤ (ci1302_vad_sensitivity_cfg sum16 ci1302_init_state 70).1.vad_sensitivity ∧
    (ci1302_vad_sensitivity_cfg sum16 ci1302_init_state 70).1.vad_sensitivity ≤ 60 :=
  vad_sensitivity_cfg_rejects sum16 ci1302_init_state 70 (by decide) (by decide)

/-- An accepted sensitivity is stored and sent as exactly one frame, which
decodes to `SET_VAD_SENSITIVITY` with the value as its one-byte payload. -/
theorem vad_sensitivity_cfg_accepts (cksum : List Nat → Nat) (s : ci1302_state)
    (sensitivity : Nat) (hlo : 45 ≤ sensitivity) (hhi : sensitivity ≤ 60) :
    (ci1302_vad_sensitivity_cfg cksum s sensitivity).1.vad_sensitivity = sensitivity ∧
    (ci1302_vad_sensitivity_cfg cksum s sensitivity).2.map
        (ci1302_protocol_recv_frame cksum 65535) =
      [some { cmd := SET_VAD_SENSITIVITY, buffer := [sensitivity], len := 1 }] := by
  have hn : ¬ (sensitivity < CI1302_VAD_SENSITIVITY_MIN ∨
      CI1302_VAD_SENSITIVITY_MAX < sensitivity) := by
    simp only [CI1302_VAD_SENSITIVITY_MIN, CI1302_VAD_SENSITIVITY_MAX]
    omega
  unfold ci1302_vad_sensitivity_cfg
  rw [if_neg hn]
  refine ⟨rfl, ?_⟩
  simp only [List.map_cons, List.map_nil]
  rw [recv_frame_write_bytes cksum 65535 SET_VAD_SENSITIVITY [sensitivity] _ _
    (by simp only [List.length_singleton]; omega) (by decide)]
  rfl

/-- C4: the flow gate returns 0 exactly when the free space last reported by
the chip is less than `need_empty_size`, and 1 exactly when it is not. -/
theorem flow_gate_boundary (s : ci1302_state) (need_empty_size : Nat) :
    (ci1302_flow_get_write_enable s need_empty_size = 0 ↔ s.empty_size < need_empty_size) ∧
    (ci1302_flow_get_write_enable s need_empty_size = 1 ↔ need_empty_size ≤ s.empty_size) := by
  unfold ci1302_flow_get_write_enable
  by_cases h : s.empty_size < need_empty_size
  · rw [if_pos h]
    exact ⟨⟨fun _ => h, fun _ => rfl⟩, ⟨fun h0 => absurd h0 (by decide), fun h1 => by omega⟩⟩
  · rw [if_neg h]
    exact ⟨⟨fun h0 => absurd h0 (by decide), fun h1 => absurd h1 h⟩,
      ⟨fun _ => by omega, fun _ => rfl⟩⟩

/-! ## Audio streaming state machine and dispatcher -/

/-- A legal transition emits callbacks that read correctly from the open flag
of the source state and leave the open flag of the target state. -/
theorem audio_step_scan (st st1 : stream_state) (ev : audio_event) (data : List Nat)
    (len : Nat) (cbs rest : List audio_cb_call)
    (h : audio_step st ev data len = some (st1, cbs)) :
    stream_scan (stream_open st) (cbs ++ rest) = stream_scan (stream_open st1) rest := by
  cases ev <;> cases st <;> simp only [audio_step, Option.some.injEq, Prod.mk.injEq,
    reduceCtorEq] at h <;> obtain ⟨rfl, rfl⟩ := h <;> rfl

theorem audio_run_scan (evs : List (audio_event × List Nat)) :
    ∀ (st st2 : stream_state) (cbs : List audio_cb_call),
      audio_run st evs = some (st2, cbs) →
      stream_scan (stream_open st) cbs = some (stream_open st2) := by
  induction evs with
  | nil =>
    intro st st2 cbs h
    simp only [audio_run, Option.some.injEq, Prod.mk.injEq] at h
    obtain ⟨rfl, rfl⟩ := h
    rfl
  | cons e evs ih =>
    intro st st2 cbs h
    obtain ⟨ev, data⟩ := e
    simp only [audio_run] at h
    cases hs : audio_step st ev data data.length with
    | none => simp only [hs, reduceCtorEq] at h
    | some r =>
      obtain ⟨st1, cbs1⟩ := r
      simp only [hs] at h
      cases hr : audio_run st1 evs with
      | none => simp only [hr, reduceCtorEq] at h
      | some r2 =>
        obtain ⟨st3, cbs2⟩ := r2
        simp only [hr, Option.some.injEq, Prod.mk.injEq] at h
        obtain ⟨rfl, rfl⟩ := h
        rw [audio_step_scan st st1 ev data data.length cbs1 cbs2 hs]
        exact ih st1 st3 cbs2 hr

theorem count_status_cons (st : ci1302_audio_status_t) (cb : audio_cb_call)
    (cbs : List audio_cb_call) :
    count_status st (cb :: cbs) = (if cb.status = st then 1 else 0) + count_status st cbs := by
  unfold count_status
  by_cases h : cb.status = st
  · simp only [List.filter_cons, h, decide_True, if_true, List.length_cons]
    omega
  · simp only [List.filter_cons, h, decide_False, if_false, Bool.false_eq_true]
    omega

/-- In a trace that reads correctly, the START callbacks and the terminal
callbacks balance up to the stream open at either end. -/
theorem stream_scan_count (cbs : List audio_cb_call) :
    ∀ (o o1 : Bool), stream_scan o cbs = some o1 →
      count_status CI1302_AUDIO_START cbs + (if o then 1 else 0) =
        count_status CI1302_AUDIO_END cbs + count_status CI1302_AUDIO_FULL_FRAME cbs +
          (if o1 then 1 else 0) := by
  induction cbs with
  | nil =>
    intro o o1 h
    simp only [stream_scan, Option.some.injEq] at h
    subst h
    simp only [count_status, List.filter_nil, List.length_nil, Nat.zero_add]
  | cons cb cbs ih =>
    intro o o1 h
    obtain ⟨status, data, len⟩ := cb
    simp only [count_status_cons]
    cases status <;> cases o <;>
      simp only [stream_scan, if_true, if_false, Bool.false_eq_true, reduceCtorEq] at h <;>
      have h2 := ih _ _ h <;>
      simp only [if_true, if_false, Bool.false_eq_true, reduceCtorEq] at h2 ⊢ <;>
      omega

/-- C5: for every event sequence that is legal from Idle and ends at Idle, the
callback trace opens and closes streams in strict alternation: every
`CI1302_AUDIO_START` is followed by exactly one terminal callback
(`CI1302_AUDIO_END` or `CI1302_AUDIO_FULL_FRAME`) before the next start and
before the end of the trace, so starts and terminal callbacks are equal in
number; and `CI1302_AUDIO_SLEEP` is only ever reported with no stream open,
a SLEEP event in mid-stream emitting the closing `CI1302_AUDIO_END` first. -/
theorem audio_stream_closure (evs : List (audio_event × List Nat))
    (cbs : List audio_cb_call)
    (h : audio_run stream_state.Idle evs = some (stream_state.Idle, cbs)) :
    stream_scan false cbs = some false ∧
    count_status CI1302_AUDIO_START cbs =
      count_status CI1302_AUDIO_END cbs + count_status CI1302_AUDIO_FULL_FRAME cbs ∧
    (∀ (st : stream_state) (data : List Nat) (len : Nat), stream_open st = true →
      audio_step st audio_event.sleep data len =
        some (stream_state.Idle,
          [⟨CI1302_AUDIO_END, [], 0⟩, ⟨CI1302_AUDIO_SLEEP, data, len⟩])) := by
  have hs := audio_run_scan evs stream_state.Idle stream_state.Idle cbs h
  have hc := stream_scan_count cbs false false hs
  refine ⟨hs, ?_, ?_⟩
  · simpa using hc
  · intro st data len ho
    cases st
    · exact absurd ho (by decide)
    · rfl
    · rfl

/-- C5 witness: start, one chunk, then SLEEP in mid-stream. -/
theorem audio_stream_closure_witness :
    stream_scan false
        [⟨CI1302_AUDIO_START, [], 0⟩, ⟨CI1302_AUDIO_RUNNING, [1, 2], 2⟩,
         ⟨CI1302_AUDIO_END, [], 0⟩, ⟨CI1302_AUDIO_SLEEP, [], 0⟩] = some false ∧
    count_status CI1302_AUDIO_START
        [⟨CI1302_AUDIO_START, [], 0⟩, ⟨CI1302_AUDIO_RUNNING, [1, 2], 2⟩,
         ⟨CI1302_AUDIO_END, [], 0⟩, ⟨CI1302_AUDIO_SLEEP, [], 0⟩] =
      count_status CI1302_AUDIO_END
        [⟨CI1302_AUDIO_START, [], 0⟩, ⟨CI1302_AUDIO_RUNNING, [1, 2], 2⟩,
         ⟨CI1302_AUDIO_END, [], 0⟩, ⟨CI1302_AUDIO_SLEEP, [], 0⟩] +
      count_status CI1302_AUDIO_FULL_FRAME
        [⟨CI1302_AUDIO_START, [], 0⟩, ⟨CI1302_AUDIO_RUNNING, [1, 2], 2⟩,
         ⟨CI1302_AUDIO_END, [], 0⟩, ⟨CI1302_AUDIO_SLEEP, [], 0⟩] ∧
    (∀ (st : stream_state) (data : List Nat) (len : Nat), stream_open st = true →
      audio_step st audio_event.sleep data len =
        some (stream_state.Idle,
          [⟨CI1302_AUDIO_END, [], 0⟩, ⟨CI1302_AUDIO_SLEEP, data, len⟩])) :=
  audio_stream_closure
    [(audio_event.start, []), (audio_event.chunk, [1, 2]), (audio_event.sleep, [])]
    [⟨CI1302_AUDIO_START, [], 0⟩, ⟨CI1302_AUDIO_RUNNING, [1, 2], 2⟩,
     ⟨CI1302_AUDIO_END, [], 0⟩, ⟨CI1302_AUDIO_SLEEP, [], 0⟩]
    (by decide)

/-- C6: with a callback registered, dispatching a received `WAKE_UP` frame
(code 0x0102, empty payload) invokes the callback exactly once, with
`(CI1302_AUDIO_WAKEUP, empty, 0)`, and `ci1302_in_wakeup` is true afterwards. -/
theorem dispatch_wake_up (s : ci1302_state) (f : ci1302_uart_frame_t)
    (hcb : s.audio_recv_cb = true)
    (hf : f = { cmd := 0x0102, buffer := [], len := 0 }) :
    (ci1302_dispatch s f).2 = [⟨CI1302_AUDIO_WAKEUP, [], 0⟩] ∧
    ci1302_in_wakeup (ci1302_dispatch s f).1 = true := by
  subst hf
  have he : audio_event_of_cmd 0x0102 = some audio_event.wakeup := by decide
  simp only [ci1302_dispatch, he, audio_step, hcb, if_true, ci1302_in_wakeup, and_self]

/-- C6 witness: the state after `ci1302_init` and
`ci1302_set_audio_recv_callback`, with the `WAKE_UP` frame of empty payload. -/
theorem dispatch_wake_up_witness :
    (ci1302_dispatch (ci1302_set_audio_recv_callback ci1302_init_state)
        { cmd := 0x0102, buffer := [], len := 0 }).2 = [⟨CI1302_AUDIO_WAKEUP, [], 0⟩] ∧
    ci1302_in_wakeup (ci1302_dispatch (ci1302_set_audio_recv_callback ci1302_init_state)
        { cmd := 0x0102, buffer := [], len := 0 }).1 = true :=
  dispatch_wake_up (ci1302_set_audio_recv_callback ci1302_init_state)
    { cmd := 0x0102, buffer := [], len := 0 } rfl rfl

/-! ## `app_main` and the startup handshake -/

theorem gated_by_seen (gate : call → Bool) (cs : List call) : gated_by gate true cs = true := by
  induction cs with
  | nil => rfl
  | cons c cs ih =>
    simp only [gated_by, Bool.or_true, Bool.true_or, Bool.true_and]
    exact ih

/-- C7 (as amended): on every run of `app_main`, each configuration command is
issued after `ci1302_wait_startup(portMAX_DELAY)` has returned (its result is
discarded); when that call returned true, each configuration command is
preceded by a successful handshake. -/
theorem app_main_config_after_startup (startup : Bool) (inputs : List Char) :
    gated_by startup_returned false (app_main startup inputs) = true ∧
    gated_by startup_succeeded false (app_main true inputs) = true := by
  constructor
  · simp only [app_main, List.cons_append, List.nil_append, gated_by, is_config_cmd,
      startup_returned, Bool.not_false, Bool.true_or, Bool.or_false, Bool.or_true,
      Bool.true_and, Bool.or_self]
    exact gated_by_seen _ _
  · simp only [app_main, List.cons_append, List.nil_append, gated_by, is_config_cmd,
      startup_succeeded, Bool.not_false, Bool.true_or, Bool.or_false, Bool.or_true,
      Bool.true_and, Bool.or_self]
    exact gated_by_seen _ _

/-- C7 counterexample: when `ci1302_wait_startup` returns false and the loop
then reads the character c, `app_main` issues `ci1302_into_sleep_mode(1)` with
no successful handshake before it. -/
theorem app_main_config_without_success :
    app_main false ['c'] =
      [call.ci1302_init, call.ci1302_set_audio_recv_callback,
       call.ci1302_wait_startup false, call.ci1302_into_sleep_mode 1] ∧
    gated_by startup_succeeded false (app_main false ['c']) = false := by
  constructor <;> decide

/-! ## Battery percentage -/

/-- C9: for every voltage, `bat_volt_calculate_percent` is between 0 and 100
inclusive. -/
theorem bat_volt_calculate_percent_range (volt_mv : Nat) :
    0 ≤ bat_volt_calculate_percent volt_mv ∧ bat_volt_calculate_percent volt_mv ≤ 100 := by
  refine ⟨Nat.zero_le _, ?_⟩
  have clamp : ∀ n : Nat, (if n > 100 then 100 else n) ≤ 100 := by
    intro n
    split <;> omega
  exact clamp _

theorem bat_volt_calculate_percent_curve (volt_mv : Nat) :
    bat_volt_calculate_percent volt_mv =
      if Int.toNat ⌊bat_volt_curve volt_mv * 100⌋ % 256 > 100 then 100
      else Int.toNat ⌊bat_volt_curve volt_mv * 100⌋ % 256 := rfl

/-- The value converted to `uint8_t` lies in `[0, 2.56)` before scaling, so the
conversion never leaves the range of the type. -/
theorem bat_volt_curve_bounds (volt_mv : Nat) :
    0 ≤ bat_volt_curve volt_mv ∧ bat_volt_curve volt_mv < 2.56 := by
  have clamp : ∀ y : ℚ, y < 2.56 →
      0 ≤ (if y < 0 then 0 else y) ∧ (if y < 0 then 0 else y) < 2.56 := by
    intro y hy
    split
    · exact ⟨le_refl 0, by norm_num⟩
    · rename_i h
      exact ⟨not_lt.1 h, hy⟩
  unfold bat_volt_curve
  dsimp only
  apply clamp
  generalize (volt_mv : ℚ) / 1000.0 = x
  split
  · norm_num
  · split
    · rename_i h1 h2
      nlinarith [mul_nonneg (sub_nonneg.2 h2.1) (sub_nonneg.2 h2.2)]
    · split
      · rename_i h1 h2 h3
        have a : 0 ≤ x - 3.59 := by linarith [h3.1]
        have b : 0 ≤ 4.049 - x := by linarith [h3.2]
        nlinarith [mul_nonneg a b, mul_nonneg (mul_nonneg a a) b,
          mul_nonneg (mul_nonneg a b) b, mul_nonneg a (sq_nonneg (x - 3.8)),
          mul_nonneg b (sq_nonneg (x - 3.8)), mul_nonneg a (sq_nonneg (x - 4.049)),
          mul_nonneg b (sq_nonneg (x - 3.59))]
      · split
        · nlinarith [sq_nonneg (x - 4.2)]
        · norm_num

/-- The low-eight-bits step of the conversion is vacuous: the percentage is the
truncated value of `100 * y`, capped at 100. -/
theorem bat_volt_calculate_percent_no_wrap (volt_mv : Nat) :
    bat_volt_calculate_percent volt_mv =
      min 100 (Int.toNat ⌊bat_volt_curve volt_mv * 100⌋) := by
  obtain ⟨h0, h1⟩ := bat_volt_curve_bounds volt_mv
  have hlt : ⌊bat_volt_curve volt_mv * 100⌋ < 256 := by
    rw [Int.floor_lt]
    push_cast
    linarith
  have hnn : 0 ≤ ⌊bat_volt_curve volt_mv * 100⌋ := Int.floor_nonneg.2 (by linarith)
  have hn : Int.toNat ⌊bat_volt_curve volt_mv * 100⌋ < 256 := by omega
  rw [bat_volt_calculate_percent_curve, Nat.mod_eq_of_lt hn]
  split <;> omega

theorem bat_volt_calculate_percent_3300 : bat_volt_calculate_percent 3300 = 0 := by
  norm_num [bat_volt_calculate_percent]

theorem bat_volt_calculate_percent_4200 : bat_volt_calculate_percent 4200 = 100 := by
  norm_num [bat_volt_calculate_percent]
  decide

theorem bat_volt_calculate_percent_3700 : bat_volt_calculate_percent 3700 = 23 := by
  norm_num [bat_volt_calculate_percent]
  decide

/-! ## Threshold events of `bat_update_task` -/

/-- One pass with a callback registered: the low-power event is emitted exactly
when the percentage is at most 20 and the flag was clear, and the flag is
clear afterwards exactly when the percentage is above 20; likewise for the
critical event with 5. -/
theorem bat_update_iter_threshold (voltage : Nat) (s : bat_task_t) :
    (((bat_update_iter true voltage s).2.any (fun e => e.1 == BAT_EVENT_LOW_POWER)) = true ↔
      (bat_update_iter true voltage s).1.g_bat_percent ≤ 20 ∧ s.low_power_notified = 0) ∧
    ((bat_update_iter true voltage s).1.low_power_notified = 0 ↔
      20 < (bat_update_iter true voltage s).1.g_bat_percent) ∧
    (((bat_update_iter true voltage s).2.any (fun e => e.1 == BAT_EVENT_CRITICAL)) = true ↔
      (bat_update_iter true voltage s).1.g_bat_percent ≤ 5 ∧ s.critical_power_notified = 0) ∧
    ((bat_update_iter true voltage s).1.critical_power_notified = 0 ↔
      5 < (bat_update_iter true voltage s).1.g_bat_percent) := by
  unfold bat_update_iter
  dsimp only
  generalize bat_volt_calculate_percent
    (bat_take_average (s.bat_average.set s.bat_ave_pos voltage) bat_average_num) = p
  simp only [BAT_EVENT_LOW_POWER, BAT_EVENT_CRITICAL, BAT_EVENT_PERCENT_CHANGE, and_true,
    List.any_append]
  by_cases h20 : p ≤ 20 <;> by_cases h5 : p ≤ 5 <;> by_cases hl : s.low_power_notified = 0 <;>
    by_cases hc : s.critical_power_notified = 0 <;> by_cases hp : p = s.last_percent <;>
    simp [h20, h5, hl, hc, hp] <;> omega
theorem iter_percent_zero (a : Nat × List (Nat × Nat)) (out : List (Nat × List (Nat × Nat))) :
    iter_percent (a :: out) 0 = a.1 := rfl

theorem iter_percent_succ (a : Nat × List (Nat × Nat)) (out : List (Nat × List (Nat × Nat)))
    (k : Nat) : iter_percent (a :: out) (k + 1) = iter_percent out k := rfl

theorem iter_emits_zero (ev : Nat) (a : Nat × List (Nat × Nat))
    (out : List (Nat × List (Nat × Nat))) :
    iter_emits ev (a :: out) 0 = a.2.any (fun e => e.1 == ev) := rfl

theorem iter_emits_succ (ev : Nat) (a : Nat × List (Nat × Nat))
    (out : List (Nat × List (Nat × Nat))) (k : Nat) :
    iter_emits ev (a :: out) (k + 1) = iter_emits ev out k := rfl

/-- From any state of the task, with a callback registered throughout: a
threshold event is emitted in pass `k` exactly when the percentage of pass `k`
is at most the threshold and the matching flag was clear on entry (`k = 0`) or
the percentage of pass `k - 1` was above the threshold. -/
theorem bat_update_task_threshold (vs : List Nat) :
    ∀ (s : bat_task_t) (k : Nat), k < vs.length →
      (iter_emits BAT_EVENT_LOW_POWER
          (bat_update_task s (vs.map (fun v => (true, v)))) k = true ↔
        iter_percent (bat_update_task s (vs.map (fun v => (true, v)))) k ≤ 20 ∧
          ((k = 0 ∧ s.low_power_notified = 0) ∨
            (0 < k ∧ 20 < iter_percent
              (bat_update_task s (vs.map (fun v => (true, v)))) (k - 1)))) ∧
      (iter_emits BAT_EVENT_CRITICAL
          (bat_update_task s (vs.map (fun v => (true, v)))) k = true ↔
        iter_percent (bat_update_task s (vs.map (fun v => (true, v)))) k ≤ 5 ∧
          ((k = 0 ∧ s.critical_power_notified = 0) ∨
            (0 < k ∧ 5 < iter_percent
              (bat_update_task s (vs.map (fun v => (true, v)))) (k - 1)))) := by
  induction vs with
  | nil =>
    intro s k hk
    exact absurd hk (Nat.not_lt_zero k)
  | cons v vs ih =>
    intro s k hk
    obtain ⟨h1, h2, h3, h4⟩ := bat_update_iter_threshold v s
    simp only [List.map_cons, bat_update_task]
    cases k with
    | zero =>
      simp only [iter_emits_zero, iter_percent_zero, true_and, Nat.lt_irrefl, false_and,
        or_false]
      exact ⟨h1, h3⟩
    | succ k =>
      have hk2 : k < vs.length := by
        simp only [List.length_cons] at hk
        omega
      obtain ⟨i1, i2⟩ := ih (bat_update_iter true v s).1 k hk2
      simp only [iter_emits_succ, iter_percent_succ, Nat.add_sub_cancel, Nat.succ_ne_zero,
        false_and, false_or, Nat.zero_lt_succ, true_and]
      constructor
      · rw [i1]
        cases k with
        | zero =>
          simp only [true_and, Nat.lt_irrefl, false_and, or_false, iter_percent_zero]
          rw [h2]
        | succ k =>
          simp only [Nat.succ_ne_zero, false_and, false_or, Nat.zero_lt_succ, true_and,
            Nat.add_sub_cancel, iter_percent_succ]
      · rw [i2]
        cases k with
        | zero =>
          simp only [true_and, Nat.lt_irrefl, false_and, or_false, iter_percent_zero]
          rw [h4]
        | succ k =>
          simp only [Nat.succ_ne_zero, false_and, false_or, Nat.zero_lt_succ, true_and,
            Nat.add_sub_cancel, iter_percent_succ]

/-- A concrete run: twelve start-up readings and two passes at 3300 mV.  Pass 0
emits the low-power and the critical event (0 percent, equal to the initial
`last_percent`, so no change event); pass 1 emits nothing. -/
theorem bat_task_run_low_battery :
    bat_task_run (List.replicate 12 3300) [3300, 3300] =
      [(0, [(BAT_EVENT_LOW_POWER, 0), (BAT_EVENT_CRITICAL, 0)]), (0, [])] := by
  have havg : bat_take_average
      [3300, 3300, 3300, 3300, 3300, 3300, 3300, 3300, 3300, 3300, 3300, 3300] 12 = 3300 := by
    decide
  simp [bat_task_run, bat_update_task, bat_update_iter, bat_task_init, havg,
    bat_volt_calculate_percent_3300, bat_average_num]

/-- C10: in a run of `bat_update_task` with an event callback registered
throughout, `BAT_EVENT_LOW_POWER` (threshold 20) and `BAT_EVENT_CRITICAL`
(threshold 5) are emitted in pass `k` if and only if the percentage of pass
`k` is at most the threshold and either `k` is the first pass or the
percentage of pass `k - 1` was above the threshold; hence between two passes
that emit the same event there is a pass above the threshold. -/
theorem threshold_events_first_entry (readings voltages : List Nat) (k : Nat)
    (hk : k < voltages.length) :
    (iter_emits BAT_EVENT_LOW_POWER (bat_task_run readings voltages) k = true ↔
      iter_percent (bat_task_run readings voltages) k ≤ 20 ∧
        (k = 0 ∨ 20 < iter_percent (bat_task_run readings voltages) (k - 1))) ∧
    (iter_emits BAT_EVENT_CRITICAL (bat_task_run readings voltages) k = true ↔
      iter_percent (bat_task_run readings voltages) k ≤ 5 ∧
        (k = 0 ∨ 5 < iter_percent (bat_task_run readings voltages) (k - 1))) ∧
    (∀ j, k < j → j < voltages.length →
      iter_emits BAT_EVENT_LOW_POWER (bat_task_run readings voltages) k = true →
      iter_emits BAT_EVENT_LOW_POWER (bat_task_run readings voltages) j = true →
      ∃ m, k < m ∧ m < j ∧ 20 < iter_percent (bat_task_run readings voltages) m) ∧
    (∀ j, k < j → j < voltages.length →
      iter_emits BAT_EVENT_CRITICAL (bat_task_run readings voltages) k = true →
      iter_emits BAT_EVENT_CRITICAL (bat_task_run readings voltages) j = true →
      ∃ m, k < m ∧ m < j ∧ 5 < iter_percent (bat_task_run readings voltages) m) := by
  have key := bat_update_task_threshold voltages (bat_task_init readings)
  have h0l : (bat_task_init readings).low_power_notified = 0 := rfl
  have h0c : (bat_task_init readings).critical_power_notified = 0 := rfl
  unfold bat_task_run
  refine ⟨?_, ?_, ?_, ?_⟩
  · rw [(key k hk).1]
    refine and_congr_right fun _ => ?_
    constructor
    · rintro (⟨h, _⟩ | ⟨_, h⟩)
      · exact Or.inl h
      · exact Or.inr h
    · intro h
      rcases Nat.eq_zero_or_pos k with hz | hp
      · exact Or.inl ⟨hz, h0l⟩
      · rcases h with h | h
        · exact Or.inl ⟨h, h0l⟩
        · exact Or.inr ⟨hp, h⟩
  · rw [(key k hk).2]
    refine and_congr_right fun _ => ?_
    constructor
    · rintro (⟨h, _⟩ | ⟨_, h⟩)
      · exact Or.inl h
      · exact Or.inr h
    · intro h
      rcases Nat.eq_zero_or_pos k with hz | hp
      · exact Or.inl ⟨hz, h0c⟩
      · rcases h with h | h
        · exact Or.inl ⟨h, h0c⟩
        · exact Or.inr ⟨hp, h⟩
  · intro j hkj hj ek ej
    have hk1 := ((key k hk).1.mp ek).1
    rcases ((key j hj).1.mp ej).2 with ⟨hz, _⟩ | ⟨_, hj1⟩
    · omega
    · refine ⟨j - 1, ?_, by omega, hj1⟩
      rcases Nat.lt_or_ge k (j - 1) with h | h
      · exact h
      · have hkeq : k = j - 1 := by omega
        rw [← hkeq] at hj1
        omega
  · intro j hkj hj ek ej
    have hk1 := ((key k hk).2.mp ek).1
    rcases ((key j hj).2.mp ej).2 with ⟨hz, _⟩ | ⟨_, hj1⟩
    · omega
    · refine ⟨j - 1, ?_, by omega, hj1⟩
      rcases Nat.lt_or_ge k (j - 1) with h | h
      · exact h
      · have hkeq : k = j - 1 := by omega
        rw [← hkeq] at hj1
        omega

/-- C10 witness: twelve start-up readings of 3300 mV and two passes reading
3300 mV (0 percent in both), at pass 0. -/
theorem threshold_events_first_entry_witness :
    (iter_emits BAT_EVENT_LOW_POWER (bat_task_run (List.replicate 12 3300) [3300, 3300]) 0 = true ↔
      iter_percent (bat_task_run (List.replicate 12 3300) [3300, 3300]) 0 ≤ 20 ∧
        (0 = 0 ∨ 20 < iter_percent (bat_task_run (List.replicate 12 3300) [3300, 3300]) (0 - 1))) ∧
    (iter_emits BAT_EVENT_CRITICAL (bat_task_run (List.replicate 12 3300) [3300, 3300]) 0 = true ↔
      iter_percent (bat_task_run (List.replicate 12 3300) [3300, 3300]) 0 ≤ 5 ∧
        (0 = 0 ∨ 5 < iter_percent (bat_task_run (List.replicate 12 3300) [3300, 3300]) (0 - 1))) ∧
    (∀ j, 0 < j → j < [3300, 3300].length →
      iter_emits BAT_EVENT_LOW_POWER (bat_task_run (List.replicate 12 3300) [3300, 3300]) 0 = true →
      iter_emits BAT_EVENT_LOW_POWER (bat_task_run (List.replicate 12 3300) [3300, 3300]) j = true →
      ∃ m, 0 < m ∧ m < j ∧
        20 < iter_percent (bat_task_run (List.replicate 12 3300) [3300, 3300]) m) ∧
    (∀ j, 0 < j → j < [3300, 3300].length →
      iter_emits BAT_EVENT_CRITICAL (bat_task_run (List.replicate 12 3300) [3300, 3300]) 0 = true →
      iter_emits BAT_EVENT_CRITICAL (bat_task_run (List.replicate 12 3300) [3300, 3300]) j = true →
      ∃ m, 0 < m ∧ m < j ∧
        5 < iter_percent (bat_task_run (List.replicate 12 3300) [3300, 3300]) m) :=
  threshold_events_first_entry (List.replicate 12 3300) [3300, 3300] 0 (by decide)

/-! ## `bat_status.c`: power saving and `get_battery_info` -/

theorem bat_volt_calculate_percent_3680 : bat_volt_calculate_percent 3680 = 20 := by
  norm_num [bat_volt_calculate_percent]
  decide

/-- The battery state after one pass of the task with every reading at
3680 mV: the percentage is 20. -/
theorem bat_percent_after_3680 :
    bat_get_percent (bat_update_iter true 3680 (bat_task_init (List.replicate 12 3680))).1 =
      20 := by
  have havg : bat_take_average
      [3680, 3680, 3680, 3680, 3680, 3680, 3680, 3680, 3680, 3680, 3680, 3680] 12 = 3680 := by
    decide
  simp [bat_get_percent, bat_update_iter, bat_task_init, havg, bat_volt_calculate_percent_3680,
    bat_average_num]

theorem should_enter_power_saving_mode_iff (s : bat_task_t) :
    should_enter_power_saving_mode s = true ↔ bat_get_percent s ≤ 20 := by
  simp only [should_enter_power_saving_mode, bat_get_usb_valid, to_bool, if_true,
    decide_True, Bool.and_true, decide_eq_true_eq]

/-- C11 (as amended): `should_enter_power_saving_mode` returns true exactly when
the battery percentage is at most 20 and `bat_get_usb_valid` reports no USB
power (which it always does), and false in every other case. -/
theorem power_saving_at_most_twenty (s : bat_task_t) :
    (should_enter_power_saving_mode s = true ↔
      bat_get_percent s ≤ 20 ∧ bat_get_usb_valid = 0) ∧
    (should_enter_power_saving_mode s = false ↔
      ¬ (bat_get_percent s ≤ 20 ∧ bat_get_usb_valid = 0)) := by
  have h := should_enter_power_saving_mode_iff s
  have hu : bat_get_usb_valid = 0 := rfl
  constructor
  · rw [h]
    exact ⟨fun hp => ⟨hp, hu⟩, fun hp => hp.1⟩
  · rw [← Bool.not_eq_true, h]
    exact ⟨fun hn hp => hn hp.1, fun hn hp => hn ⟨hp, hu⟩⟩

/-- C11 counterexample: after a pass with every reading at 3680 mV the
percentage is 20, not below 20, no USB power is reported, and
`should_enter_power_saving_mode` returns true. -/
theorem power_saving_at_twenty :
    bat_get_percent (bat_update_iter true 3680 (bat_task_init (List.replicate 12 3680))).1 =
      20 ∧
    bat_get_usb_valid = 0 ∧
    should_enter_power_saving_mode
      (bat_update_iter true 3680 (bat_task_init (List.replicate 12 3680))).1 = true ∧
    ¬ (should_enter_power_saving_mode
        (bat_update_iter true 3680 (bat_task_init (List.replicate 12 3680))).1 = true ↔
      bat_get_percent (bat_update_iter true 3680 (bat_task_init (List.replicate 12 3680))).1 <
        20 ∧ bat_get_usb_valid = 0) := by
  have hp := bat_percent_after_3680
  have hs : should_enter_power_saving_mode
      (bat_update_iter true 3680 (bat_task_init (List.replicate 12 3680))).1 = true := by
    rw [should_enter_power_saving_mode_iff, hp]
  refine ⟨hp, rfl, hs, ?_⟩
  intro h
  have h2 := (h.mp hs).1
  rw [hp] at h2
  exact absurd h2 (by decide)

theorem store_same (m : memory) (p v : Nat) : store m p v p = v := by
  simp only [store, if_true]

theorem store_other (m : memory) (p v a : Nat) (h : a ≠ p) : store m p v a = m a := by
  simp only [store, if_neg h]

/-- C12: for every combination of null and non-null output pointers (the
non-null ones pointing to different cells), `get_battery_info` leaves the
battery state unchanged, leaves the cell at address 0 unchanged, stores
`bat_get_percent()`, `bat_get_volt_mv()`, `bat_in_charge()` and
`bat_get_usb_valid()` in the cells of the matching non-null pointers, and
changes no other cell. -/
theorem get_battery_info_frame (s : bat_task_t) (m : memory)
    (percent voltage_mv is_charging usb_connected : Nat)
    (hpv : percent ≠ 0 → voltage_mv ≠ 0 → percent ≠ voltage_mv)
    (hpc : percent ≠ 0 → is_charging ≠ 0 → percent ≠ is_charging)
    (hpu : percent ≠ 0 → usb_connected ≠ 0 → percent ≠ usb_connected)
    (hvc : voltage_mv ≠ 0 → is_charging ≠ 0 → voltage_mv ≠ is_charging)
    (hvu : voltage_mv ≠ 0 → usb_connected ≠ 0 → voltage_mv ≠ usb_connected)
    (hcu : is_charging ≠ 0 → usb_connected ≠ 0 → is_charging ≠ usb_connected) :
    (get_battery_info s m percent voltage_mv is_charging usb_connected).1 = s ∧
    (get_battery_info s m percent voltage_mv is_charging usb_connected).2 0 = m 0 ∧
    (percent ≠ 0 →
      (get_battery_info s m percent voltage_mv is_charging usb_connected).2 percent =
        bat_get_percent s) ∧
    (voltage_mv ≠ 0 →
      (get_battery_info s m percent voltage_mv is_charging usb_connected).2 voltage_mv =
        bat_get_volt_mv s) ∧
    (is_charging ≠ 0 →
      (get_battery_info s m percent voltage_mv is_charging usb_connected).2 is_charging =
        to_bool bat_in_charge) ∧
    (usb_connected ≠ 0 →
      (get_battery_info s m percent voltage_mv is_charging usb_connected).2 usb_connected =
        to_bool bat_get_usb_valid) ∧
    (∀ a, a ≠ percent → a ≠ voltage_mv → a ≠ is_charging → a ≠ usb_connected →
      (get_battery_info s m percent voltage_mv is_charging usb_connected).2 a = m a) := by
  unfold get_battery_info
  dsimp only
  refine ⟨rfl, ?_, ?_, ?_, ?_, ?_, ?_⟩
  · by_cases h1 : percent = 0 <;> by_cases h2 : voltage_mv = 0 <;>
      by_cases h3 : is_charging = 0 <;> by_cases h4 : usb_connected = 0 <;>
      simp [store, h1, h2, h3, h4, Ne.symm]
  · intro h1
    by_cases h2 : voltage_mv = 0 <;> by_cases h3 : is_charging = 0 <;>
      by_cases h4 : usb_connected = 0 <;>
      simp [store, h1, h2, h3, h4, hpv, hpc, hpu]
  · intro h2
    by_cases h1 : percent = 0 <;> by_cases h3 : is_charging = 0 <;>
      by_cases h4 : usb_connected = 0 <;>
      simp [store, h1, h2, h3, h4, hvc, hvu]
  · intro h3
    by_cases h1 : percent = 0 <;> by_cases h2 : voltage_mv = 0 <;>
      by_cases h4 : usb_connected = 0 <;>
      simp [store, h1, h2, h3, h4, hcu]
  · intro h4
    by_cases h1 : percent = 0 <;> by_cases h2 : voltage_mv = 0 <;>
      by_cases h3 : is_charging = 0 <;>
      simp [store, h1, h2, h3, h4]
  · intro a a1 a2 a3 a4
    by_cases h1 : percent = 0 <;> by_cases h2 : voltage_mv = 0 <;>
      by_cases h3 : is_charging = 0 <;> by_cases h4 : usb_connected = 0 <;>
      simp [store, h1, h2, h3, h4, a1, a2, a3, a4]

/-! ## `main.c`: the button repeat callback -/

/-- The callback erases `wifiCfg` and restarts exactly for counts above 5, and
only logs for counts up to 5. -/
theorem btn_repeat_callback_cb_threshold (repeat_count : Nat) :
    (btn_repeat_callback_cb repeat_count =
        [sys_call.storage_nvs_erase_key "wifiCfg", sys_call.esp_restart] ↔
      5 < repeat_count) ∧
    (btn_repeat_callback_cb repeat_count = [sys_call.ESP_LOGE repeat_count] ↔
      repeat_count ≤ 5) := by
  unfold btn_repeat_callback_cb
  by_cases h : repeat_count > 5
  · simp [h]
  · simp [h]
    omega

/-- C15 at its failing input: with a repeat count of 5 the callback neither
erases `wifiCfg` nor restarts, it only logs; the first count that resets is
6. -/
theorem btn_repeat_callback_cb_five :
    btn_repeat_callback_cb 5 = [sys_call.ESP_LOGE 5] ∧
    sys_call.storage_nvs_erase_key "wifiCfg" ∉ btn_repeat_callback_cb 5 ∧
    sys_call.esp_restart ∉ btn_repeat_callback_cb 5 ∧
    btn_repeat_callback_cb 6 =
      [sys_call.storage_nvs_erase_key "wifiCfg", sys_call.esp_restart] := by
  refine ⟨rfl, ?_, ?_, rfl⟩ <;> simp [btn_repeat_callback_cb]

/-! ## Percent-change event of `bat_update_task` -/

/-- One pass from any state: `last_percent` becomes the new percentage, and the
events are the change event (present exactly when a callback is registered and
the new percentage differs from `last_percent`, carrying the new percentage)
followed only by low-power and critical events. -/
theorem bat_update_iter_change (cb : Bool) (voltage : Nat) (s : bat_task_t) :
    (bat_update_iter cb voltage s).1.last_percent =
      (bat_update_iter cb voltage s).1.g_bat_percent ∧
    ∃ rest : List (Nat × Nat),
      (bat_update_iter cb voltage s).2 =
        (if cb = true ∧ (bat_update_iter cb voltage s).1.g_bat_percent ≠ s.last_percent then
          [(BAT_EVENT_PERCENT_CHANGE, (bat_update_iter cb voltage s).1.g_bat_percent)]
         else []) ++ rest ∧
      rest.all (fun e => e.1 == BAT_EVENT_LOW_POWER || e.1 == BAT_EVENT_CRITICAL) = true := by
  refine ⟨rfl, ?_⟩
  unfold bat_update_iter
  dsimp only
  generalize bat_volt_calculate_percent
    (bat_take_average (s.bat_average.set s.bat_ave_pos voltage) bat_average_num) = p
  refine ⟨(if decide (p ≤ 20 ∧ s.low_power_notified = 0 ∧ cb = true) = true then
      [(BAT_EVENT_LOW_POWER, p)] else []) ++
    (if decide (p ≤ 5 ∧ s.critical_power_notified = 0 ∧ cb = true) = true then
      [(BAT_EVENT_CRITICAL, p)] else []), ?_, ?_⟩
  · rw [List.append_assoc]
    congr 1
    by_cases h1 : cb = true <;> by_cases h2 : p = s.last_percent <;> simp [h1, h2]
  · simp only [BAT_EVENT_LOW_POWER, BAT_EVENT_CRITICAL, List.all_append]
    by_cases h20 : p ≤ 20 <;> by_cases h5 : p ≤ 5 <;>
      by_cases hl : s.low_power_notified = 0 <;>
      by_cases hc : s.critical_power_notified = 0 <;> cases cb <;>
      simp [h20, h5, hl, hc]

theorem iter_events_zero (a : Nat × List (Nat × Nat)) (out : List (Nat × List (Nat × Nat))) :
    iter_events (a :: out) 0 = a.2 := rfl

theorem iter_events_succ (a : Nat × List (Nat × Nat)) (out : List (Nat × List (Nat × Nat)))
    (k : Nat) : iter_events (a :: out) (k + 1) = iter_events out k := rfl

/-- From any state of the task: the events of pass `k` are the change event,
present exactly when a callback is registered in pass `k` and the percentage
differs from that of the pass before (`last_percent` of the state for
`k = 0`), followed only by low-power and critical events. -/
theorem bat_update_task_change (inputs : List (Bool × Nat)) :
    ∀ (s : bat_task_t) (k : Nat), k < inputs.length →
      ∃ rest : List (Nat × Nat),
        iter_events (bat_update_task s inputs) k =
          (if (inputs.getD k (false, 0)).1 = true ∧
              iter_percent (bat_update_task s inputs) k ≠
                (if k = 0 then s.last_percent
                 else iter_percent (bat_update_task s inputs) (k - 1)) then
            [(BAT_EVENT_PERCENT_CHANGE, iter_percent (bat_update_task s inputs) k)]
           else []) ++ rest ∧
        rest.all (fun e => e.1 == BAT_EVENT_LOW_POWER || e.1 == BAT_EVENT_CRITICAL) = true := by
  induction inputs with
  | nil =>
    intro s k hk
    exact absurd hk (Nat.not_lt_zero k)
  | cons i inputs ih =>
    intro s k hk
    obtain ⟨cb, v⟩ := i
    obtain ⟨hlast, rest, hev, hrest⟩ := bat_update_iter_change cb v s
    cases k with
    | zero =>
      refine ⟨rest, ?_, hrest⟩
      simp only [bat_update_task, iter_events_zero, iter_percent_zero, List.getD_cons_zero,
        if_true]
      exact hev
    | succ k =>
      have hk2 : k < inputs.length := by
        simp only [List.length_cons] at hk
        omega
      obtain ⟨rest2, hev2, hrest2⟩ := ih (bat_update_iter cb v s).1 k hk2
      refine ⟨rest2, ?_, hrest2⟩
      simp only [bat_update_task, iter_events_succ, iter_percent_succ, List.getD_cons_succ,
        Nat.succ_ne_zero, if_false, Nat.add_sub_cancel]
      rw [hev2]
      cases k with
      | zero =>
        simp only [if_true, iter_percent_zero, hlast]
      | succ k =>
        simp only [Nat.succ_ne_zero, if_false, Nat.add_sub_cancel, iter_percent_succ]

theorem change_head_any (c : Prop) [Decidable c] (p : Nat) (rest : List (Nat × Nat))
    (hrest : rest.all
      (fun e => e.1 == BAT_EVENT_LOW_POWER || e.1 == BAT_EVENT_CRITICAL) = true) :
    (((if c then [(BAT_EVENT_PERCENT_CHANGE, p)] else []) ++ rest).any
      (fun e => e.1 == BAT_EVENT_PERCENT_CHANGE) = true) ↔ c := by
  have hno : rest.any (fun e => e.1 == BAT_EVENT_PERCENT_CHANGE) = false := by
    rw [Bool.eq_false_iff]
    intro hany
    rw [List.any_eq_true] at hany
    obtain ⟨e, he, h6⟩ := hany
    rw [List.all_eq_true] at hrest
    have h12 := hrest e he
    simp only [BAT_EVENT_PERCENT_CHANGE, BAT_EVENT_LOW_POWER, BAT_EVENT_CRITICAL,
      beq_iff_eq, Bool.or_eq_true] at h6 h12
    omega
  rw [List.any_append, hno, Bool.or_false]
  by_cases hc : c
  · simp [hc]
  · simp [hc]

/-- C14: in every pass `k` of `bat_update_task`, `BAT_EVENT_PERCENT_CHANGE` is
emitted if and only if a callback is registered in that pass and the new
percentage differs from the percentage of the previous pass (0 before the
first pass); when emitted it comes first among the events of the pass, once,
carrying the new percentage, and every other event of the pass (low-power,
critical) comes after it. -/
theorem percent_change_event (readings : List Nat) (inputs : List (Bool × Nat)) (k : Nat)
    (hk : k < inputs.length) :
    (iter_emits BAT_EVENT_PERCENT_CHANGE
        (bat_update_task (bat_task_init readings) inputs) k = true ↔
      (inputs.getD k (false, 0)).1 = true ∧
        iter_percent (bat_update_task (bat_task_init readings) inputs) k ≠
          prev_percent (bat_update_task (bat_task_init readings) inputs) k) ∧
    ∃ rest : List (Nat × Nat),
      iter_events (bat_update_task (bat_task_init readings) inputs) k =
        (if iter_emits BAT_EVENT_PERCENT_CHANGE
            (bat_update_task (bat_task_init readings) inputs) k = true then
          [(BAT_EVENT_PERCENT_CHANGE,
            iter_percent (bat_update_task (bat_task_init readings) inputs) k)]
         else []) ++ rest ∧
      rest.all (fun e => e.1 == BAT_EVENT_LOW_POWER || e.1 == BAT_EVENT_CRITICAL) = true := by
  obtain ⟨rest, hev, hrest⟩ := bat_update_task_change inputs (bat_task_init readings) k hk
  have hl : (bat_task_init readings).last_percent = 0 := rfl
  rw [hl] at hev
  have hiff : iter_emits BAT_EVENT_PERCENT_CHANGE
        (bat_update_task (bat_task_init readings) inputs) k = true ↔
      (inputs.getD k (false, 0)).1 = true ∧
        iter_percent (bat_update_task (bat_task_init readings) inputs) k ≠
          prev_percent (bat_update_task (bat_task_init readings) inputs) k := by
    have : iter_emits BAT_EVENT_PERCENT_CHANGE
        (bat_update_task (bat_task_init readings) inputs) k =
        (iter_events (bat_update_task (bat_task_init readings) inputs) k).any
          (fun e => e.1 == BAT_EVENT_PERCENT_CHANGE) := rfl
    rw [this, hev]
    exact change_head_any _ _ rest hrest
  refine ⟨hiff, rest, ?_, hrest⟩
  rw [hev]
  congr 1
  by_cases hc : (inputs.getD k (false, 0)).1 = true ∧
      iter_percent (bat_update_task (bat_task_init readings) inputs) k ≠
        prev_percent (bat_update_task (bat_task_init readings) inputs) k
  · rw [if_pos (hiff.2 hc)]
    exact if_pos hc
  · have hne : ¬ (iter_emits BAT_EVENT_PERCENT_CHANGE
        (bat_update_task (bat_task_init readings) inputs) k = true) := fun h => hc (hiff.1 h)
    rw [if_neg hne]
    exact if_neg hc

/-! ## `bat_take_average` -/

theorem foldl_add_mod (f : Nat → Nat) (M : Nat) (l : List Nat) :
    ∀ a : Nat, a < M →
      l.foldl (fun total i => (total + f i) % M) a = (a + (l.map f).sum) % M := by
  induction l with
  | nil =>
    intro a ha
    simp only [List.foldl_nil, List.map_nil, List.sum_nil, Nat.add_zero]
    exact (Nat.mod_eq_of_lt ha).symm
  | cons i l ih =>
    intro a ha
    have hM : 0 < M := Nat.lt_of_le_of_lt (Nat.zero_le a) ha
    simp only [List.foldl_cons, List.map_cons, List.sum_cons]
    rw [ih _ (Nat.mod_lt _ hM), Nat.mod_add_mod, Nat.add_assoc]

theorem range_map_getD (l : List Nat) (n : Nat) :
    ∀ s : Nat, s + n ≤ l.length →
      (List.range' s n).map (fun i => l.getD i 0) = (l.drop s).take n := by
  induction n with
  | zero =>
    intro s _
    simp only [List.range'_zero, List.map_nil, List.take_zero]
  | succ n ih =>
    intro s hs
    have hlt : s < l.length := by omega
    rw [List.range'_succ, List.map_cons, ih (s + 1) (by omega), List.drop_eq_getElem_cons hlt,
      List.take_succ_cons, List.getD_eq_getElem l 0 hlt]

/-- The sorted copy made by `bat_take_average` is the ascending arrangement of
the caller's list, whatever sorting routine produces it. -/
theorem sorted_copy_unique (volt_list srt : List Nat)
    (hs : List.Sorted (fun a b => a ≤ b) srt) (hp : List.Perm srt volt_list) :
    volt_list.insertionSort (fun a b => a ≤ b) = srt :=
  List.eq_of_perm_of_sorted ((List.perm_insertionSort _ volt_list).trans hp.symm)
    (List.sorted_insertionSort _ volt_list) hs

/-- C13: for a list of `num ≥ 7` voltages (`num` a 32-bit count) whose retained
samples sum to less than 2^32, `bat_take_average` returns `S / (num - 6)`
rounded down, `S` being the sum of the entries at positions `3 .. num - 4` of
the ascending arrangement `srt` of the list, that is, of `srt` without its
three smallest and three largest entries; the divisor `num - 6` is positive,
every index `3 ≤ i < num - 3` lies inside `srt`, and the buffer of the calling
task after a pass is the buffer with the new reading stored, unsorted. -/
theorem bat_take_average_trimmed (volt_list srt : List Nat) (num : Nat)
    (hnum : 7 ≤ num) (h32 : num < 4294967296) (hlen : volt_list.length = num)
    (hs : List.Sorted (fun a b => a ≤ b) srt) (hp : List.Perm srt volt_list)
    (hsum : ((srt.drop 3).take (num - 6)).sum < 4294967296) :
    bat_take_average volt_list num = ((srt.drop 3).take (num - 6)).sum / (num - 6) ∧
    srt = srt.take 3 ++ (srt.drop 3).take (num - 6) ++ srt.drop (num - 3) ∧
    (srt.take 3).length = 3 ∧ (srt.drop (num - 3)).length = 3 ∧
    0 < (num + 4294967296 - 6) % 4294967296 ∧
    (∀ i, 3 ≤ i → i < num - 3 → i < srt.length) ∧
    (∀ (cb : Bool) (voltage : Nat) (s : bat_task_t),
      (bat_update_iter cb voltage s).1.bat_average =
        s.bat_average.set s.bat_ave_pos voltage) := by
  have hsl : srt.length = num := by rw [hp.length_eq, hlen]
  have hb : (num + 4294967296 - 3) % 4294967296 = num - 3 := by omega
  have hd : (num + 4294967296 - 6) % 4294967296 = num - 6 := by omega
  have htake : volt_list.take num = volt_list := by
    rw [← hlen]
    exact List.take_length volt_list
  refine ⟨?_, ?_, ?_, ?_, ?_, ?_, ?_⟩
  · unfold bat_take_average
    dsimp only
    rw [htake, sorted_copy_unique volt_list srt hs hp, hb, hd,
      foldl_add_mod (fun i => srt.getD i 0) 4294967296 _ 0 (by decide), Nat.zero_add,
      show num - 3 - 3 = num - 6 by omega, range_map_getD srt (num - 6) 3 (by omega),
      Nat.mod_eq_of_lt hsum]
  · have h1 : srt.drop (num - 3) = (srt.drop 3).drop (num - 6) := by
      rw [List.drop_drop]
      exact congrArg (fun n => srt.drop n) (by omega)
    rw [h1, List.append_assoc, List.take_append_drop, List.take_append_drop]
  · rw [List.length_take, hsl]
    omega
  · rw [List.length_drop, hsl]
    omega
  · rw [hd]
    omega
  · intro i _ hi
    rw [hsl]
    omega
  · intro cb voltage s
    rfl

set_option maxRecDepth 100000 in
/-- C13 witness: twelve unsorted readings, as in the only call. -/
theorem bat_take_average_trimmed_witness :
    bat_take_average [3700, 3650, 3710, 3600, 3690, 3705, 3695, 3702, 3698, 3900, 3701, 3699]
        12 =
      (([3600, 3650, 3690, 3695, 3698, 3699, 3700, 3701, 3702, 3705, 3710, 3900].drop 3).take
        (12 - 6)).sum / (12 - 6) ∧
    [3600, 3650, 3690, 3695, 3698, 3699, 3700, 3701, 3702, 3705, 3710, 3900] =
      [3600, 3650, 3690, 3695, 3698, 3699, 3700, 3701, 3702, 3705, 3710, 3900].take 3 ++
        ([3600, 3650, 3690, 3695, 3698, 3699, 3700, 3701, 3702, 3705, 3710, 3900].drop 3).take
          (12 - 6) ++
        [3600, 3650, 3690, 3695, 3698, 3699, 3700, 3701, 3702, 3705, 3710, 3900].drop (12 - 3) ∧
    ([3600, 3650, 3690, 3695, 3698, 3699, 3700, 3701, 3702, 3705, 3710, 3900].take 3).length =
      3 ∧
    ([3600, 3650, 3690, 3695, 3698, 3699, 3700, 3701, 3702, 3705, 3710, 3900].drop
      (12 - 3)).length = 3 ∧
    0 < (12 + 4294967296 - 6) % 4294967296 ∧
    (∀ i, 3 ≤ i → i < 12 - 3 →
      i < [3600, 3650, 3690, 3695, 3698, 3699, 3700, 3701, 3702, 3705, 3710, 3900].length) ∧
    (∀ (cb : Bool) (voltage : Nat) (s : bat_task_t),
      (bat_update_iter cb voltage s).1.bat_average =
        s.bat_average.set s.bat_ave_pos voltage) :=
  bat_take_average_trimmed
    [3700, 3650, 3710, 3600, 3690, 3705, 3695, 3702, 3698, 3900, 3701, 3699]
    [3600, 3650, 3690, 3695, 3698, 3699, 3700, 3701, 3702, 3705, 3710, 3900] 12
    (by decide) (by decide) (by decide) (by decide) (by decide) (by decide)

set_option maxRecDepth 100000 in
/-- The trimmed average of the twelve readings of the witness: the six retained
samples sum to 22195, giving 3699. -/
theorem bat_take_average_example :
    bat_take_average [3700, 3650, 3710, 3600, 3690, 3705, 3695, 3702, 3698, 3900, 3701, 3699]
      12 = 3699 := by
  decide

/-- C12 witness: percent and charging pointers non-null (cells 100 and 104),
voltage and USB pointers null, every cell holding 7 before the call. -/
theorem get_battery_info_frame_witness :
    (get_battery_info (bat_task_init []) (fun _ => 7) 100 0 104 0).1 = (bat_task_init []) ∧
    (get_battery_info (bat_task_init []) (fun _ => 7) 100 0 104 0).2 0 = (fun _ => 7) 0 ∧
    (100 ≠ 0 →
      (get_battery_info (bat_task_init []) (fun _ => 7) 100 0 104 0).2 100 =
        bat_get_percent (bat_task_init [])) ∧
    (0 ≠ 0 →
      (get_battery_info (bat_task_init []) (fun _ => 7) 100 0 104 0).2 0 =
        bat_get_volt_mv (bat_task_init [])) ∧
    (104 ≠ 0 →
      (get_battery_info (bat_task_init []) (fun _ => 7) 100 0 104 0).2 104 =
        to_bool bat_in_charge) ∧
    (0 ≠ 0 →
      (get_battery_info (bat_task_init []) (fun _ => 7) 100 0 104 0).2 0 =
        to_bool bat_get_usb_valid) ∧
    (∀ a, a ≠ 100 → a ≠ 0 → a ≠ 104 → a ≠ 0 →
      (get_battery_info (bat_task_init []) (fun _ => 7) 100 0 104 0).2 a = (fun _ => 7) a) :=
  get_battery_info_frame (bat_task_init []) (fun _ => 7) 100 0 104 0
    (by decide) (by decide) (by decide) (by decide) (by decide) (by decide)

/-- A concrete call after a pass at 3680 mV: the percent cell receives 20, the
charging cell 0, the cell at address 0 and an unrelated cell keep their 7. -/
theorem get_battery_info_example :
    (get_battery_info (bat_update_iter true 3680 (bat_task_init (List.replicate 12 3680))).1
      (fun _ => 7) 100 0 104 0).2 100 = 20 ∧
    (get_battery_info (bat_update_iter true 3680 (bat_task_init (List.replicate 12 3680))).1
      (fun _ => 7) 100 0 104 0).2 104 = 0 ∧
    (get_battery_info (bat_update_iter true 3680 (bat_task_init (List.replicate 12 3680))).1
      (fun _ => 7) 100 0 104 0).2 0 = 7 ∧
    (get_battery_info (bat_update_iter true 3680 (bat_task_init (List.replicate 12 3680))).1
      (fun _ => 7) 100 0 104 0).2 108 = 7 := by
  have hp := bat_percent_after_3680
  generalize (bat_update_iter true 3680 (bat_task_init (List.replicate 12 3680))).1 = s at hp ⊢
  refine ⟨?_, ?_, ?_, ?_⟩ <;>
    simp [get_battery_info, store, hp, to_bool, bat_in_charge, bat_get_usb_valid]

/-- C14 witness: twelve start-up readings of 3680 mV, then passes reading
3680 mV and 3300 mV with a callback registered, at pass 0. -/
theorem percent_change_event_witness :
    (iter_emits BAT_EVENT_PERCENT_CHANGE
        (bat_update_task (bat_task_init (List.replicate 12 3680))
          [(true, 3680), (true, 3300)]) 0 = true ↔
      ([(true, 3680), (true, 3300)].getD 0 (false, 0)).1 = true ∧
        iter_percent
            (bat_update_task (bat_task_init (List.replicate 12 3680))
              [(true, 3680), (true, 3300)]) 0 ≠
          prev_percent
            (bat_update_task (bat_task_init (List.replicate 12 3680))
              [(true, 3680), (true, 3300)]) 0) ∧
    ∃ rest : List (Nat × Nat),
      iter_events
          (bat_update_task (bat_task_init (List.replicate 12 3680))
            [(true, 3680), (true, 3300)]) 0 =
        (if iter_emits BAT_EVENT_PERCENT_CHANGE
            (bat_update_task (bat_task_init (List.replicate 12 3680))
              [(true, 3680), (true, 3300)]) 0 = true then
          [(BAT_EVENT_PERCENT_CHANGE,
            iter_percent
              (bat_update_task (bat_task_init (List.replicate 12 3680))
                [(true, 3680), (true, 3300)]) 0)]
         else []) ++ rest ∧
      rest.all (fun e => e.1 == BAT_EVENT_LOW_POWER || e.1 == BAT_EVENT_CRITICAL) = true :=
  percent_change_event (List.replicate 12 3680) [(true, 3680), (true, 3300)] 0 (by decide)

/-- A concrete run with the callback registered only from the second pass on,
every reading at 3680 mV: pass 0 computes 20 percent and emits nothing; pass 1
computes 20 again, so no change event, and emits the low-power event. -/
theorem bat_update_task_late_callback :
    bat_update_task (bat_task_init (List.replicate 12 3680)) [(false, 3680), (true, 3680)] =
      [(20, []), (20, [(BAT_EVENT_LOW_POWER, 20)])] := by
  have havg : bat_take_average
      [3680, 3680, 3680, 3680, 3680, 3680, 3680, 3680, 3680, 3680, 3680, 3680] 12 = 3680 := by
    decide
  simp [bat_update_task, bat_update_iter, bat_task_init, havg,
    bat_volt_calculate_percent_3680, bat_average_num]

end CI1302
